import Mathlib

/-!
InspireCV value geometry, timing helper, logging and check macros, and the
command-line handling of the two face tools.

A shallow embedding of the value types declared in
`include/inspirecv/core/{point,rect,transform_matrix}.h`, of the inline
class `TimeSpend` of `include/inspirecv/time_spend.h`, of the macros of
`logging.h` and `check.h`, of `ParseArguments`, `IsFrontalFace`,
`CompareFaceWithDatabase`, `SaveFaceImageWithId` and the per-face body of the
main loop (`camera_face_recognizer.cpp`), and of `AddFacesFromDirectory` and
`main` (`add_face_to_database.cpp`). External calls of the tools (model
loading, detection, database, file system) enter as the answers they return.

The geometry classes are declared in the headers only (their bodies live
behind `class Impl` and are not part of the sources at hand), so their
operations are modelled from the specification text; each such definition
says so in its doc comment. The coordinate type `T` is instantiated at
`int` (the default alias `Rect2 = Rect<int>`, `Point2 = Point<int>`) and
read as mathematical integers; the `double` returned by `IoU` and the
`float` entries of `TransformMatrix` are read as exact rationals.
-/

namespace inspirecv

/-! ## Point and Rect -/

/-- Modelled from the spec: `Point<T>` is a pair `(x, y)`; equality is exact
value equality over both coordinates. The class body is missing from the
sources (pimpl). -/
structure Point where
  x : Int
  y : Int
deriving DecidableEq, Repr

/-- Modelled from the spec: `Rect<T>` is `(x, y, width, height)`, top-left
origin plus size; the type enforces no sign condition on the size. The class
body is missing from the sources (pimpl). -/
structure Rect where
  x : Int
  y : Int
  width : Int
  height : Int
deriving DecidableEq, Repr

/-- Modelled from the spec: the missing body of `Rect::TopLeft`, the corner
at the origin `(x, y)` of the rectangle. -/
def Rect.TopLeft (r : Rect) : Point :=
  { x := r.x, y := r.y }

/-- Modelled from the spec: the missing body of `Rect::BottomRight`, the
corner opposite to the origin, origin plus size. -/
def Rect.BottomRight (r : Rect) : Point :=
  { x := r.x + r.width, y := r.y + r.height }

/-- Modelled from the spec: the missing body of
`Rect::Create(left_top, right_bottom)`; the origin is the top-left corner and
the size is the difference of the two corners. -/
def Rect.Create (left_top right_bottom : Point) : Rect :=
  { x := left_top.x
    y := left_top.y
    width := right_bottom.x - left_top.x
    height := right_bottom.y - left_top.y }

/-- Modelled from the spec: the missing body of `Rect::Area`, which the spec
gives as `width*height`. -/
def Rect.Area (r : Rect) : Int :=
  r.width * r.height

/-- Modelled from the spec: the missing body of `Rect::Empty`, documented in
the header as "true if width or height is zero". -/
def Rect.Empty (r : Rect) : Bool :=
  r.width == 0 || r.height == 0

/-- Modelled from the spec: the missing body of `Rect::Intersect`. The
result spans from the larger of the two origins to the smaller of the two
far corners. For rectangles that do not overlap the spec returns a value,
never an error: a rectangle with `width <= 0` or `height <= 0` that is
treated as empty. An empty extent is therefore cut off at 0, so that an
empty result never has a positive area. -/
def Rect.Intersect (a other : Rect) : Rect :=
  let x1 := max a.x other.x
  let y1 := max a.y other.y
  let x2 := min (a.x + a.width) (other.x + other.width)
  let y2 := min (a.y + a.height) (other.y + other.height)
  { x := x1, y := y1, width := max 0 (x2 - x1), height := max 0 (y2 - y1) }

/-- Modelled from the spec: the union area that `IoU` divides by, the two
areas minus the area counted twice (the scenario of the spec gives
`100 + 100 - 25 = 175`). -/
def Rect.UnionArea (a other : Rect) : Int :=
  a.Area + other.Area - (a.Intersect other).Area

/-- Modelled from the spec: the missing body of `Rect::IoU`,
"intersection-area divided by union-area, 0 when rectangles do not overlap".
Two rectangles do not overlap when their `Intersect` has `width <= 0` or
`height <= 0`. -/
def Rect.IoU (a other : Rect) : ℚ :=
  let inter := a.Intersect other
  if inter.width ≤ 0 ∨ inter.height ≤ 0 then 0
  else (inter.Area : ℚ) / (a.UnionArea other : ℚ)

/-- Modelled from the spec: the missing body of `Rect::Contains(Rect)`, full
containment on all four sides with boundary-touching counted as contained. -/
def Rect.Contains (a rect : Rect) : Bool :=
  decide (a.x ≤ rect.x) && decide (a.y ≤ rect.y) &&
    decide (rect.x + rect.width ≤ a.x + a.width) &&
    decide (rect.y + rect.height ≤ a.y + a.height)

/-- Modelled from the spec: the missing body of `Rect::SafeRect(W, H)`, which
clips the rectangle to `[0,W) × [0,H)`: the origin is raised to `0`, the far
corner is lowered to `(W, H)`. -/
def Rect.SafeRect (r : Rect) (width height : Int) : Rect :=
  let x1 := max 0 r.x
  let y1 := max 0 r.y
  let x2 := min (r.x + r.width) width
  let y2 := min (r.y + r.height) height
  { x := x1, y := y1, width := x2 - x1, height := y2 - y1 }

/-! ## TransformMatrix -/

/-- Modelled from the spec: `TransformMatrix` holds six numbers encoding the
2×3 affine map `[a11 a12 b1; a21 a22 b2]`, that is
`(x', y') = (a11 x + a12 y + b1, a21 x + a22 y + b2)`. The class body is
missing from the sources (pimpl); the `float` entries are read as exact
rationals. -/
structure TransformMatrix where
  a11 : ℚ
  a12 : ℚ
  b1 : ℚ
  a21 : ℚ
  a22 : ℚ
  b2 : ℚ
deriving DecidableEq, Repr

/-- Modelled from the spec: the missing body of `TransformMatrix::Identity`,
the transform `[1 0 0; 0 1 0]`. -/
def TransformMatrix.Identity : TransformMatrix :=
  { a11 := 1, a12 := 0, b1 := 0, a21 := 0, a22 := 1, b2 := 0 }

/-- Determinant `a11*a22 - a12*a21` of the 2×2 linear part. -/
def TransformMatrix.det (t : TransformMatrix) : ℚ :=
  t.a11 * t.a22 - t.a12 * t.a21

/-- Modelled from the spec: the missing body of `TransformMatrix::GetInverse`,
"standard 2×2 linear-part inverse combined with adjusted translation". The
precondition (non-singular linear part) is documented, not checked at run
time, so the function is total; on a singular matrix the quotients are by
zero and the result carries no meaning. -/
def TransformMatrix.GetInverse (t : TransformMatrix) : TransformMatrix :=
  let d := t.det
  let i11 := t.a22 / d
  let i12 := -t.a12 / d
  let i21 := -t.a21 / d
  let i22 := t.a11 / d
  { a11 := i11, a12 := i12, b1 := -(i11 * t.b1 + i12 * t.b2)
    a21 := i21, a22 := i22, b2 := -(i21 * t.b1 + i22 * t.b2) }

/-- Modelled from the spec: the missing body of `TransformMatrix::Multiply`,
standard affine composition in the convention "apply `other` first, then
`this`" (the product of the two matrices completed by the row `[0 0 1]`). -/
def TransformMatrix.Multiply (t other : TransformMatrix) : TransformMatrix :=
  { a11 := t.a11 * other.a11 + t.a12 * other.a21
    a12 := t.a11 * other.a12 + t.a12 * other.a22
    b1 := t.a11 * other.b1 + t.a12 * other.b2 + t.b1
    a21 := t.a21 * other.a11 + t.a22 * other.a21
    a22 := t.a21 * other.a12 + t.a22 * other.a22
    b2 := t.a21 * other.b1 + t.a22 * other.b2 + t.b2 }

/-! ## Similarity-transform estimation -/

/-- Modelled from the spec: the centroid of a point set, used by both
estimators of `point.h` (their bodies are missing from the sources). -/
def centroid (ps : List Point) : ℚ × ℚ :=
  let n : ℚ := (ps.length : ℚ)
  ((ps.map (fun p => (p.x : ℚ))).sum / n, (ps.map (fun p => (p.y : ℚ))).sum / n)

/-- Modelled from the spec: the sum of the squared distances of the points
to their centroid (bodies of the estimators are missing from the sources). -/
def centredSquares (ps : List Point) : ℚ :=
  let μ := centroid ps
  (ps.map (fun p => ((p.x : ℚ) - μ.1) ^ 2 + ((p.y : ℚ) - μ.2) ^ 2)).sum

/-- Modelled from the spec: the squared residual `Σ‖dst_i − T(src_i)‖²` that
`SimilarityTransformEstimate` minimises (its body is missing from the
sources), with `T` the affine map of a `TransformMatrix`. -/
def squaredResidual (t : TransformMatrix) (src dst : List Point) : ℚ :=
  ((List.zip src dst).map (fun sd =>
    ((sd.2.x : ℚ) - (t.a11 * sd.1.x + t.a12 * sd.1.y + t.b1)) ^ 2 +
    ((sd.2.y : ℚ) - (t.a21 * sd.1.x + t.a22 * sd.1.y + t.b2)) ^ 2)).sum

/-- Modelled from the spec: the missing body of `SimilarityTransformEstimate`,
the closed-form least-squares solution for the four similarity parameters
(the matrix `[a -b tx; b a ty]`) minimising `Σ‖dst_i − T(src_i)‖²`. The
input is unsupported (`none`) when the two sets differ in length or the
source points coincide. -/
def SimilarityTransformEstimate (src_points dst_points : List Point) :
    Option TransformMatrix :=
  if src_points.length ≠ dst_points.length then none
  else
    let μs := centroid src_points
    let μd := centroid dst_points
    let den := centredSquares src_points
    if den = 0 then none
    else
      let p := ((List.zip src_points dst_points).map (fun sd =>
        ((sd.1.x : ℚ) - μs.1) * ((sd.2.x : ℚ) - μd.1) +
        ((sd.1.y : ℚ) - μs.2) * ((sd.2.y : ℚ) - μd.2))).sum
      let q := ((List.zip src_points dst_points).map (fun sd =>
        ((sd.1.x : ℚ) - μs.1) * ((sd.2.y : ℚ) - μd.2) -
        ((sd.1.y : ℚ) - μs.2) * ((sd.2.x : ℚ) - μd.1))).sum
      let a := p / den
      let b := q / den
      some { a11 := a, a12 := -b, b1 := μd.1 - (a * μs.1 - b * μs.2)
             a21 := b, a22 := a, b2 := μd.2 - (b * μs.1 + a * μs.2) }

/-- A 2×2 matrix of rationals, rows `[m11 m12; m21 m22]`. -/
structure Mat2 where
  m11 : ℚ
  m12 : ℚ
  m21 : ℚ
  m22 : ℚ
deriving DecidableEq, Repr

/-- The 2×2 identity matrix. -/
def Mat2.one : Mat2 := { m11 := 1, m12 := 0, m21 := 0, m22 := 1 }

/-- The diagonal matrix `diag(d1, d2)`. -/
def Mat2.diag (d1 d2 : ℚ) : Mat2 := { m11 := d1, m12 := 0, m21 := 0, m22 := d2 }

/-- Transpose of a 2×2 matrix. -/
def Mat2.transpose (m : Mat2) : Mat2 :=
  { m11 := m.m11, m12 := m.m21, m21 := m.m12, m22 := m.m22 }

/-- Product of two 2×2 matrices. -/
def Mat2.mul (a b : Mat2) : Mat2 :=
  { m11 := a.m11 * b.m11 + a.m12 * b.m21
    m12 := a.m11 * b.m12 + a.m12 * b.m22
    m21 := a.m21 * b.m11 + a.m22 * b.m21
    m22 := a.m21 * b.m12 + a.m22 * b.m22 }

/-- Determinant of a 2×2 matrix. -/
def Mat2.det (m : Mat2) : ℚ := m.m11 * m.m22 - m.m12 * m.m21

/-- The three factors `U`, `diag(d1, d2)`, `V` of a singular-value
decomposition `U · diag(d1, d2) · Vᵀ`. -/
structure SVD2 where
  U : Mat2
  d1 : ℚ
  d2 : ℚ
  V : Mat2
deriving DecidableEq, Repr

/-- The factors `f` form a singular-value decomposition of `m`: `U` and `V`
are orthogonal, the singular values are ordered `d1 ≥ d2 ≥ 0`, and
`U · diag(d1, d2) · Vᵀ = m`. -/
def IsSVD (m : Mat2) (f : SVD2) : Prop :=
  f.U.transpose.mul f.U = Mat2.one ∧ f.V.transpose.mul f.V = Mat2.one ∧
  0 ≤ f.d2 ∧ f.d2 ≤ f.d1 ∧
  (f.U.mul (Mat2.diag f.d1 f.d2)).mul f.V.transpose = m

instance (m : Mat2) (f : SVD2) : Decidable (IsSVD m f) := by
  unfold IsSVD
  infer_instance

/-- Modelled from the spec: the covariance matrix of the Umeyama estimator,
`(1/n) Σ (dst_i − μ_dst)(src_i − μ_src)ᵀ` (the body of the estimator is
missing from the sources). -/
def covariance (src_points dst_points : List Point) : Mat2 :=
  let n : ℚ := (src_points.length : ℚ)
  let μs := centroid src_points
  let μd := centroid dst_points
  let pairs := List.zip src_points dst_points
  { m11 := (pairs.map (fun sd => ((sd.2.x : ℚ) - μd.1) * ((sd.1.x : ℚ) - μs.1))).sum / n
    m12 := (pairs.map (fun sd => ((sd.2.x : ℚ) - μd.1) * ((sd.1.y : ℚ) - μs.2))).sum / n
    m21 := (pairs.map (fun sd => ((sd.2.y : ℚ) - μd.2) * ((sd.1.x : ℚ) - μs.1))).sum / n
    m22 := (pairs.map (fun sd => ((sd.2.y : ℚ) - μd.2) * ((sd.1.y : ℚ) - μs.2))).sum / n }

/-- Modelled from the spec: the missing body of
`SimilarityTransformEstimateUmeyama`, the Umeyama closed-form estimator:
centroid subtraction, covariance matrix, and its singular-value decomposition
give rotation `R = U S Vᵀ`, uniform scale `c = tr(D S) / σ²` and translation
`t = μ_dst − c R μ_src`. The decomposition routine is a parameter `svd`. The
sign matrix `S = diag(1, s)` keeps `R` a rotation: `s = -1` when the
covariance has a negative determinant, or, for a covariance of rank one, when
`det U · det V` is negative. The input is unsupported (`none`) when the two
sets differ in length, the source points coincide, or the covariance is
zero. -/
def SimilarityTransformEstimateUmeyama (svd : Mat2 → SVD2)
    (src_points dst_points : List Point) : Option TransformMatrix :=
  if src_points.length ≠ dst_points.length then none
  else
    let n : ℚ := (src_points.length : ℚ)
    let μs := centroid src_points
    let μd := centroid dst_points
    let var := centredSquares src_points / n
    let cov := covariance src_points dst_points
    let f := svd cov
    if var = 0 ∨ f.d1 = 0 then none
    else
      let s : ℚ :=
        if f.d2 = 0 then (if f.U.det * f.V.det < 0 then -1 else 1)
        else (if cov.det < 0 then -1 else 1)
      let R := (f.U.mul (Mat2.diag 1 s)).mul f.V.transpose
      let c := (f.d1 + s * f.d2) / var
      some { a11 := c * R.m11, a12 := c * R.m12
             b1 := μd.1 - c * (R.m11 * μs.1 + R.m12 * μs.2)
             a21 := c * R.m21, a22 := c * R.m22
             b2 := μd.2 - c * (R.m21 * μs.1 + R.m22 * μs.2) }

/-! ## TimeSpend -/

/-- Largest value of `uint64_t`. -/
def UINT64_MAX : Nat := 2 ^ 64 - 1

/-- Reduction of a natural number to the range of `uint64_t`. -/
def u64 (n : Nat) : Nat := n % 2 ^ 64

/-- Unsigned 64-bit subtraction `a - b`, wrapping below zero. -/
def u64sub (a b : Nat) : Nat := (u64 a + 2 ^ 64 - u64 b) % 2 ^ 64

/-- The data members of `class TimeSpend` (the static flag `is_enable`,
used only by `Report`, is left out). -/
structure TimeSpend where
  start_ : Nat
  stop_ : Nat
  total_ : Nat
  count_ : Nat
  min_ : Nat
  max_ : Nat
  name_ : String
deriving DecidableEq, Repr

/-- `TimeSpend::Reset`. -/
def TimeSpend.Reset (ts : TimeSpend) : TimeSpend :=
  { ts with start_ := 0, stop_ := 0, total_ := 0, count_ := 0,
            min_ := UINT64_MAX, max_ := 0 }

/-- The constructors `TimeSpend()` and `TimeSpend(name)`: the name is set
(empty by default) and `Reset()` is called. The members are uninitialised
before `Reset()` runs; any value will do for them here. -/
def TimeSpend.new (name : String) : TimeSpend :=
  TimeSpend.Reset { start_ := 0, stop_ := 0, total_ := 0, count_ := 0,
                    min_ := 0, max_ := 0, name_ := name }

/-- `TimeSpend::Start`; `now` is the value returned by `_now()`, a
`uint64_t`. -/
def TimeSpend.Start (ts : TimeSpend) (now : Nat) : TimeSpend :=
  { ts with start_ := u64 now }

/-- `TimeSpend::Stop`; `now` is the value returned by `_now()`, a
`uint64_t`; the three updates `stop_ - start_`, `total_ += d` and `++count_`
are unsigned 64-bit operations. -/
def TimeSpend.Stop (ts : TimeSpend) (now : Nat) : TimeSpend :=
  let stop := u64 now
  let d := u64sub stop ts.start_
  { ts with stop_ := stop
            total_ := u64 (ts.total_ + d)
            count_ := u64 (ts.count_ + 1)
            min_ := min ts.min_ d
            max_ := max ts.max_ d }

/-- `TimeSpend::Get`. -/
def TimeSpend.Get (ts : TimeSpend) : Nat :=
  u64sub ts.stop_ ts.start_

/-- `TimeSpend::Average`. -/
def TimeSpend.Average (ts : TimeSpend) : Nat :=
  if ts.count_ = 0 then 0 else ts.total_ / ts.count_

/-- `TimeSpend::Total`. -/
def TimeSpend.Total (ts : TimeSpend) : Nat :=
  ts.total_

/-- `TimeSpend::Count`. -/
def TimeSpend.Count (ts : TimeSpend) : Nat :=
  ts.count_

/-- `TimeSpend::Min`. -/
def TimeSpend.Min (ts : TimeSpend) : Nat :=
  if ts.count_ = 0 then 0 else ts.min_

/-- `TimeSpend::Max`. -/
def TimeSpend.Max (ts : TimeSpend) : Nat :=
  ts.max_

/-- The duration measured by one `Start()`/`Stop()` pair whose two calls of
`_now()` returned `p.1` and `p.2`: `stop - start` in `uint64_t`. -/
def TimeSpend.duration (p : Nat × Nat) : Nat :=
  u64sub p.2 p.1

/-- A run of `Start()`/`Stop()` pairs, one per entry of `clock`, each entry
holding the two values `_now()` returned. -/
def TimeSpend.run (ts : TimeSpend) (clock : List (Nat × Nat)) : TimeSpend :=
  clock.foldl (fun s p => (s.Start p.1).Stop p.2) ts

/-! ## Logging and check macros -/

/-- The enumeration `ISFLogging::LogSeverity` of `logging.h`. -/
inductive LogSeverity where
  | INFO
  | WARN
  | ERROR
  | FATAL
deriving DecidableEq, Repr

/-- The underlying `int` value of a `LogSeverity` enumerator, as declared:
`INFO = 0`, `WARN = 1`, `ERROR = 2`, `FATAL = 3`. -/
def LogSeverity.toInt : LogSeverity → Int
  | LogSeverity.INFO => 0
  | LogSeverity.WARN => 1
  | LogSeverity.ERROR => 2
  | LogSeverity.FATAL => 3

/-- The data members of a log record, an object of `class ISFLogging`;
`stream_` holds the text streamed into the record. -/
structure ISFLogging where
  severity_ : LogSeverity
  filename_ : String
  line_ : Int
  stream_ : String
deriving DecidableEq, Repr

/-- The static data member `ISFLogging::vlog_level_`, the module-level
verbosity threshold. -/
structure VLogState where
  vlog_level_ : Int
deriving DecidableEq, Repr

/-- Modelled from the spec: the missing body of the static
`ISFLogging::VLogLevel` (declared in `logging.h`, defined elsewhere), which
reads the module-level verbosity threshold. -/
def ISFLogging.VLogLevel (st : VLogState) : Int :=
  st.vlog_level_

/-- Modelled from the spec: the missing body of the static
`ISFLogging::VLogSetLevel` (declared in `logging.h`, defined elsewhere),
which stores the module-level verbosity threshold. -/
def ISFLogging.VLogSetLevel (_st : VLogState) (level : Int) : VLogState :=
  { vlog_level_ := level }

/-- The macro `INSPIRECV_LOG(severity)` followed by `<< msg`: a record built
by `ISFLogging(__FILE__, __LINE__, severity)` whose stream receives `msg`. -/
def INSPIRECV_LOG (severity : LogSeverity) (file : String) (line : Int)
    (msg : String) : ISFLogging :=
  { severity_ := severity, filename_ := file, line_ := line, stream_ := msg }

/-- The macro `INSPIRECV_VLOG_IS_ON(verboselevel)`:
`((verboselevel) <= ISFLogging::VLogLevel())`. -/
def INSPIRECV_VLOG_IS_ON (st : VLogState) (verboselevel : Int) : Bool :=
  decide (verboselevel ≤ ISFLogging.VLogLevel st)

/-- The macro `INSPIRECV_VLOG_SET_LEVEL(verboselevel)`. -/
def INSPIRECV_VLOG_SET_LEVEL (st : VLogState) (verboselevel : Int) : VLogState :=
  ISFLogging.VLogSetLevel st verboselevel

/-- The macro `INSPIRECV_LOG_IF(severity, condition)` of `check.h`,
`if (condition) INSPIRECV_LOG(severity)`, followed by `<< msg`: the record
created, if any. -/
def INSPIRECV_LOG_IF (severity : LogSeverity) (condition : Bool) (file : String)
    (line : Int) (msg : String) : Option ISFLogging :=
  if condition then some (INSPIRECV_LOG severity file line msg) else none

/-- Modelled from the spec: the macro `LOG_IF` that `INSPIRE_VLOG` expands to
is defined nowhere in the sources; it is taken to be the gated log that the
spec describes ("a module-level verbosity threshold gates an additional
verbose-log macro"), the same as `INSPIRECV_LOG_IF`. -/
def LOG_IF (severity : LogSeverity) (condition : Bool) (file : String)
    (line : Int) (msg : String) : Option ISFLogging :=
  if condition then some (INSPIRECV_LOG severity file line msg) else none

/-- The macro `INSPIRE_VLOG(verboselevel)`:
`LOG_IF(INFO, INSPIRECV_VLOG_IS_ON(verboselevel))`, followed by `<< msg`. -/
def INSPIRE_VLOG (st : VLogState) (verboselevel : Int) (file : String) (line : Int)
    (msg : String) : Option ISFLogging :=
  LOG_IF LogSeverity.INFO (INSPIRECV_VLOG_IS_ON st verboselevel) file line msg

/-- The macro `INSPIRECV_CHECK(condition)` followed by `<< msg`:
`INSPIRECV_LOG_IF(FATAL, !(condition)) << "Check failed: (" #condition ") "`;
`text` is the stringified condition. -/
def INSPIRECV_CHECK (condition : Bool) (text : String) (file : String) (line : Int)
    (msg : String) : Option ISFLogging :=
  INSPIRECV_LOG_IF LogSeverity.FATAL (!condition) file line
    ("Check failed: (" ++ text ++ ") " ++ msg)

/-- The macro `INSPIRECV_CHECK_EQ(a, b)`: `INSPIRECV_CHECK((a) == (b))`. The
macro is textual, so the operands may be of any two types; `eq` is the
operator `==` that C++ selects for them (for floats the IEEE comparison,
which is false on not-a-number; for mixed integer types the comparison after
the usual conversions), and the macro sees only the `bool` it yields. -/
def INSPIRECV_CHECK_EQ {α β : Type} (eq : α → β → Bool) (a : α) (b : β)
    (text : String) (file : String) (line : Int) (msg : String) : Option ISFLogging :=
  INSPIRECV_CHECK (eq a b) text file line msg

/-- The macro `INSPIRECV_CHECK_NE(a, b)`: `INSPIRECV_CHECK((a) != (b))`, with
`ne` the operator `!=` that C++ selects for the operands. -/
def INSPIRECV_CHECK_NE {α β : Type} (ne : α → β → Bool) (a : α) (b : β)
    (text : String) (file : String) (line : Int) (msg : String) : Option ISFLogging :=
  INSPIRECV_CHECK (ne a b) text file line msg

/-- The macro `INSPIRECV_CHECK_LE(a, b)`: `INSPIRECV_CHECK((a) <= (b))`, with
`le` the operator `<=` that C++ selects for the operands. -/
def INSPIRECV_CHECK_LE {α β : Type} (le : α → β → Bool) (a : α) (b : β)
    (text : String) (file : String) (line : Int) (msg : String) : Option ISFLogging :=
  INSPIRECV_CHECK (le a b) text file line msg

/-- The macro `INSPIRECV_CHECK_LT(a, b)`: `INSPIRECV_CHECK((a) < (b))`, with
`lt` the operator `<` that C++ selects for the operands. -/
def INSPIRECV_CHECK_LT {α β : Type} (lt : α → β → Bool) (a : α) (b : β)
    (text : String) (file : String) (line : Int) (msg : String) : Option ISFLogging :=
  INSPIRECV_CHECK (lt a b) text file line msg

/-- The macro `INSPIRECV_CHECK_GE(a, b)`: `INSPIRECV_CHECK((a) >= (b))`, with
`ge` the operator `>=` that C++ selects for the operands. -/
def INSPIRECV_CHECK_GE {α β : Type} (ge : α → β → Bool) (a : α) (b : β)
    (text : String) (file : String) (line : Int) (msg : String) : Option ISFLogging :=
  INSPIRECV_CHECK (ge a b) text file line msg

/-- The macro `INSPIRECV_CHECK_GT(a, b)`: `INSPIRECV_CHECK((a) > (b))`, with
`gt` the operator `>` that C++ selects for the operands. -/
def INSPIRECV_CHECK_GT {α β : Type} (gt : α → β → Bool) (a : α) (b : β)
    (text : String) (file : String) (line : Int) (msg : String) : Option ISFLogging :=
  INSPIRECV_CHECK (gt a b) text file line msg

/-- What follows a use of `INSPIRECV_RETURN_IF_ERROR` in the enclosing
function: the function returns the given status, or execution continues
after the macro. -/
inductive ControlFlow (Status : Type) where
  | returned (status : Status)
  | continues
deriving DecidableEq, Repr

/-- The effect of one use of `INSPIRECV_RETURN_IF_ERROR`: the program state
after it, the log records it created, and the control flow. -/
structure MacroEffect (σ Status : Type) where
  state : σ
  log : List ISFLogging
  flow : ControlFlow Status

/-- The macro `INSPIRECV_RETURN_IF_ERROR(...)`. The argument expression is a
computation `expr` on the program state; the type `okcv::Status` is not
declared in the sources, so it is a parameter together with its two members
used here, `ok()` and `message()`:
`const okcv::Status _status = (expr); if (!_status.ok()) {`
`INSPIRECV_LOG(ERROR) << _status.message(); return _status; }`. -/
def INSPIRECV_RETURN_IF_ERROR {σ Status : Type} (ok : Status → Bool)
    (message : Status → String) (expr : σ → Status × σ) (file : String) (line : Int)
    (st : σ) : MacroEffect σ Status :=
  let r := expr st
  let _status := r.1
  if !(ok _status) then
    { state := r.2
      log := [INSPIRECV_LOG LogSeverity.ERROR file line (message _status)]
      flow := ControlFlow.returned _status }
  else
    { state := r.2, log := [], flow := ControlFlow.continues }

/-- An expression instrumented with a counter of its evaluations: each
evaluation of `count expr` evaluates `expr` once and adds one to the
counter. -/
def countEvaluations {σ Status : Type} (expr : σ → Status × σ) :
    σ × Nat → Status × (σ × Nat) :=
  fun s => ((expr s.1).1, ((expr s.1).2, s.2 + 1))

/-! ## Command-line tools: strings -/

/-- The constant `std::string::npos`, the largest `size_t` (64-bit target). -/
def npos : Nat := 2 ^ 64 - 1

/-- `std::string::find_last_of(".")` for a one-character set: the index of
the last occurrence of `c` in `s`, or `npos` when `c` does not occur. -/
def find_last_of (s : List Char) (c : Char) : Nat :=
  if c ∈ s then s.length - 1 - s.reverse.indexOf c else npos

/-- `std::string::substr(pos)` for `pos <= size()`: the characters from
index `pos` on. (For `pos > size()` the library throws; the one call site
never passes such a position, see `find_last_of_succ_le`.) -/
def substr (s : List Char) (pos : Nat) : List Char :=
  s.drop pos

/-- The function `::tolower` in the "C" locale, which the tools never change:
`A`..`Z` are mapped to `a`..`z`, every other character is kept. -/
def tolower (c : Char) : Char :=
  c.toLower

/-- The extension test of `AddFacesFromDirectory` on one directory entry:
`ext = filename.substr(filename.find_last_of(".") + 1)`, lower-cased, is
compared with `jpg`, `jpeg`, `png` and `bmp`. The sum
`find_last_of(".") + 1` is computed in `size_t` and wraps. -/
def hasImageExtension (filename : String) : Bool :=
  let pos := (find_last_of filename.toList '.' + 1) % 2 ^ 64
  let ext := (substr filename.toList pos).map tolower
  ext == "jpg".toList || ext == "jpeg".toList || ext == "png".toList
    || ext == "bmp".toList

/-- The two exceptions `std::stoi` throws. -/
inductive StoiError where
  | invalid_argument
  | out_of_range
deriving DecidableEq, Repr

/-- The limit `INT_MAX` of a 32-bit `int`. -/
def INT_MAX : Int := 2 ^ 31 - 1

/-- The limit `INT_MIN` of a 32-bit `int`. -/
def INT_MIN : Int := -(2 ^ 31)

/-- The white-space characters that `strtol` skips (`isspace` in the "C"
locale): space, `\t`, `\n`, `\v`, `\f`, `\r`. -/
def isspace (c : Char) : Bool :=
  c == ' ' || c == Char.ofNat 9 || c == Char.ofNat 10 || c == Char.ofNat 11
    || c == Char.ofNat 12 || c == Char.ofNat 13

/-- The value of a run of decimal digits, most significant digit first. -/
def decimalValue (ds : List Char) : Nat :=
  ds.foldl (fun acc c => 10 * acc + (c.toNat - 48)) 0

/-- The library function `std::stoi(str)` (base 10), as the C++ standard
defines it through `strtol`: leading white space is skipped, an optional
sign is read, then the longest run of decimal digits; what follows the
digits is ignored. Without a digit it throws `std::invalid_argument`; when
the value does not fit an `int` it throws `std::out_of_range`. -/
def stoi (str : String) : Except StoiError Int :=
  let s := str.toList.dropWhile isspace
  let neg : Bool := decide (s.head? = some '-')
  let rest := if s.head? = some '-' ∨ s.head? = some '+' then s.tail else s
  let ds := rest.takeWhile Char.isDigit
  if ds.isEmpty then Except.error StoiError.invalid_argument
  else
    let v : Int := if neg then -(decimalValue ds : Int) else (decimalValue ds : Int)
    if v < INT_MIN ∨ INT_MAX < v then Except.error StoiError.out_of_range
    else Except.ok v

/-! ## Command-line tools: camera_face_recognizer -/

/-- The result of `ParseArguments`: the returned flag and the two reference
parameters `model_path` and `camera_index` as the call leaves them. -/
structure ParseResult where
  ret : Bool
  model_path : String
  camera_index : Int
deriving DecidableEq, Repr

/-- The function `ParseArguments` of `camera_face_recognizer.cpp`; `argc` is
the length of `argv`, and `model_path`, `camera_index` are the values the
reference parameters hold at the call. An exception thrown by `std::stoi`
leaves the function. -/
def ParseArguments (argv : List String) (model_path : String) (camera_index : Int) :
    Except StoiError ParseResult :=
  let argc := argv.length
  if argc < 2 ∨ argc > 3 then
    Except.ok { ret := false, model_path := model_path, camera_index := camera_index }
  else
    let model_path := argv.getD 1 ""
    let camera_index : Int := 0
    if argc = 3 then
      match stoi (argv.getD 2 "") with
      | Except.ok v => Except.ok { ret := true, model_path := model_path, camera_index := v }
      | Except.error e => Except.error e
    else
      Except.ok { ret := true, model_path := model_path, camera_index := camera_index }

/-! ## Command-line tools: add_face_to_database -/

/-- The file-type mask `S_IFMT` of `<sys/stat.h>` (octal 0170000). -/
def S_IFMT : Nat := 61440

/-- The file-type value `S_IFDIR` of `<sys/stat.h>` (octal 0040000). -/
def S_IFDIR : Nat := 16384

/-- What the external calls return for one image of the directory: whether
`cv::imread` gave an empty image, the code of `FaceDetectAndTrack`, the
number of detected faces, the code of `FaceFeatureExtract` and the code of
`FaceFeatureInsert`. -/
structure ImageOutcome where
  image_empty : Bool
  detect_result : Int
  faces_size : Nat
  extract_result : Int
  insert_result : Int
deriving DecidableEq, Repr

/-- What the external collaborators of `add_face_to_database.cpp` answer:
`context->Load(model_path)`, whether `Session::CreatePtr` gave a session,
`EnableHub`, `opendir`/`readdir` (the entry names, or `none` when the
directory cannot be opened), `stat` (the `st_mode`, or `none` when it
fails), and the outcome of the calls for each image path. -/
structure World where
  load : String → Int
  session_created : Bool
  hub_result : Int
  opendir : String → Option (List String)
  stat : String → Option Nat
  image : String → ImageOutcome

/-- The body of the loop over `image_files` in `AddFacesFromDirectory`:
whether the iteration reaches `success_count++`. Each failed step
`continue`s; the frontal-face test only prints a warning. -/
def imageInserted (o : ImageOutcome) : Bool :=
  if o.image_empty then false
  else if o.detect_result ≠ 0 then false
  else if o.faces_size = 0 then false
  else if o.extract_result ≠ 0 then false
  else decide (o.insert_result = 0)

/-- The vector `image_files` that `AddFacesFromDirectory` collects: the full
path `image_dir + "/" + filename` of every entry that passes the extension
test, in directory order. -/
def imageFiles (image_dir : String) (entries : List String) : List String :=
  (entries.filter hasImageExtension).map (fun filename => image_dir ++ "/" ++ filename)

/-- The value of `success_count` after the loop over `image_files`. (It is
an `int`; the count stays far below `2^31` for any directory that can be
processed, and overflow of a signed counter is undefined.) -/
def successCount (w : World) (image_files : List String) : Int :=
  image_files.foldl (fun n p => if imageInserted (w.image p) then n + 1 else n) 0

/-- The function `AddFacesFromDirectory` of `add_face_to_database.cpp`: its
return value, given the answers of the external calls. -/
def AddFacesFromDirectory (w : World) (image_dir model_path : String) : Int :=
  if w.load model_path ≠ 0 then -1
  else if !w.session_created then -1
  else if w.hub_result ≠ 0 then -1
  else
    match w.opendir image_dir with
    | none => -1
    | some entries =>
      let image_files := imageFiles image_dir entries
      if image_files.isEmpty then -1
      else if successCount w image_files > 0 then 0 else -1

/-- The branch in which `main` of `add_face_to_database.cpp` returns: after
the usage text, after the message that the argument is not a directory,
with the result of `AddFacesFromDirectory`, or after the message of the
final `else` (parameter error). -/
inductive MainBranch where
  | usage
  | notDirectory
  | processed
  | parameterError
deriving DecidableEq, Repr

/-- The function `main` of `add_face_to_database.cpp`: the branch taken and
the exit code; `argc` is the length of `argv`. -/
def add_face_to_database_main (w : World) (argv : List String) : MainBranch × Int :=
  let argc := argv.length
  if argc < 3 then (MainBranch.usage, -1)
  else
    let model_path := argv.getD 1 ""
    if argc ≥ 2 then
      match w.stat (argv.getD 2 "") with
      | some st_mode =>
        if st_mode &&& S_IFDIR ≠ 0 then
          (MainBranch.processed, AddFacesFromDirectory w (argv.getD 2 "") model_path)
        else (MainBranch.notDirectory, -1)
      | none => (MainBranch.notDirectory, -1)
    else (MainBranch.parameterError, -1)

/-- A sample world for `add_face_to_database`: the model loads, the session
and the hub come up, the only directory is `faces` (mode octal 040755) with
the single entry `a.jpg`, and every image yields one face whose feature is
inserted. -/
def sampleWorld : World :=
  { load := fun _ => 0
    session_created := true
    hub_result := 0
    opendir := fun path => if path = "faces" then some ["a.jpg"] else none
    stat := fun path => if path = "faces" then some 16877 else none
    image := fun _ =>
      { image_empty := false, detect_result := 0, faces_size := 1,
        extract_result := 0, insert_result := 0 } }

/-! ## camera_face_recognizer: float values, faces and the per-face steps -/

/-- The values a `float` or `double` can take, as far as comparison, `abs`
and negation see them: a number (every float is a rational; `-0.0` and `0.0`
compare equal and are both `finite 0`), the two infinities, or not-a-number.
These three operations are exact on floats, so no rounding is involved. -/
inductive FloatValue where
  | finite (q : ℚ)
  | posInf
  | negInf
  | nan
deriving DecidableEq, Repr

/-- The function `std::abs` on a float. -/
def FloatValue.abs : FloatValue → FloatValue
  | FloatValue.finite q => FloatValue.finite |q|
  | FloatValue.posInf => FloatValue.posInf
  | FloatValue.negInf => FloatValue.posInf
  | FloatValue.nan => FloatValue.nan

/-- Unary minus on a float. -/
def FloatValue.neg : FloatValue → FloatValue
  | FloatValue.finite q => FloatValue.finite (-q)
  | FloatValue.posInf => FloatValue.negInf
  | FloatValue.negInf => FloatValue.posInf
  | FloatValue.nan => FloatValue.nan

/-- The comparison `a < b` on floats: false as soon as one side is
not-a-number. -/
def FloatValue.lt : FloatValue → FloatValue → Bool
  | FloatValue.nan, _ => false
  | _, FloatValue.nan => false
  | FloatValue.finite p, FloatValue.finite q => decide (p < q)
  | FloatValue.finite _, FloatValue.posInf => true
  | FloatValue.finite _, FloatValue.negInf => false
  | FloatValue.negInf, FloatValue.negInf => false
  | FloatValue.negInf, _ => true
  | FloatValue.posInf, _ => false

/-- The comparison `a >= b` on floats: false as soon as one side is
not-a-number. -/
def FloatValue.ge : FloatValue → FloatValue → Bool
  | FloatValue.nan, _ => false
  | _, FloatValue.nan => false
  | FloatValue.finite p, FloatValue.finite q => decide (q ≤ p)
  | FloatValue.finite _, FloatValue.posInf => false
  | FloatValue.finite _, FloatValue.negInf => true
  | FloatValue.posInf, _ => true
  | FloatValue.negInf, FloatValue.negInf => true
  | FloatValue.negInf, _ => false

/-- The comparison `a == b` on floats: false as soon as one side is
not-a-number. -/
def FloatValue.eq : FloatValue → FloatValue → Bool
  | FloatValue.finite p, FloatValue.finite q => decide (p = q)
  | FloatValue.posInf, FloatValue.posInf => true
  | FloatValue.negInf, FloatValue.negInf => true
  | _, _ => false

/-- The comparison `a != b` on floats, the negation of `a == b`: true as
soon as one side is not-a-number. -/
def FloatValue.ne (a b : FloatValue) : Bool :=
  !(a.eq b)

/-- The comparison `a <= b` on floats. -/
def FloatValue.le (a b : FloatValue) : Bool :=
  b.ge a

/-- The comparison `a > b` on floats. -/
def FloatValue.gt (a b : FloatValue) : Bool :=
  b.lt a

/-- The member `face3DAngle` of `inspire::FaceTrackWrap` (a type of the face
library, not declared in the sources): the three pose angles in degrees. -/
structure Face3DAngle where
  yaw : FloatValue
  pitch : FloatValue
  roll : FloatValue
deriving DecidableEq, Repr

/-- The type `inspire::FaceRect` (not declared in the sources): four `int`
members. -/
structure FaceRect where
  x : Int
  y : Int
  width : Int
  height : Int
deriving DecidableEq, Repr

/-- The members of `inspire::FaceTrackWrap` (not declared in the sources)
that the tools read: the pose angles and the face rectangle. -/
structure FaceTrackWrap where
  face3DAngle : Face3DAngle
  rect : FaceRect
deriving DecidableEq, Repr

/-- The function `IsFrontalFace` of `camera_face_recognizer.cpp`;
`angle_threshold` is `15.0f`. -/
def IsFrontalFace (face : FaceTrackWrap) : Bool :=
  let yaw := face.face3DAngle.yaw
  let pitch := face.face3DAngle.pitch
  let roll := face.face3DAngle.roll
  let angle_threshold := FloatValue.finite 15
  (yaw.abs.lt angle_threshold) && (pitch.abs.lt angle_threshold) &&
    (roll.abs.lt angle_threshold)

/-- The value `is_frontal` computed inline in `AddFacesFromDirectory`
(`add_face_to_database.cpp`) from the angles of the first detected face. -/
def AddFacesFromDirectory_is_frontal (face : FaceTrackWrap) : Bool :=
  let yaw := face.face3DAngle.yaw
  let pitch := face.face3DAngle.pitch
  let roll := face.face3DAngle.roll
  let angle_threshold := FloatValue.finite 15
  (yaw.abs.lt angle_threshold) && (pitch.abs.lt angle_threshold) &&
    (roll.abs.lt angle_threshold)

/-- Reduction of an integer to the range of a 32-bit `int` (two's
complement), for the one subtraction of `SaveFaceImageWithId`. -/
def int32 (n : Int) : Int :=
  (n + 2 ^ 31) % 2 ^ 32 - 2 ^ 31

/-- The arguments of the `cv::Rect(x, y, width, height)` that
`SaveFaceImageWithId` builds. -/
structure RegionOfInterest where
  x : Int
  y : Int
  width : Int
  height : Int
deriving DecidableEq, Repr

/-- The region computed by `SaveFaceImageWithId` for a frame of `cols` x
`rows` pixels: the `cv::Rect` handed to `cv::Mat(frame, ...)` when the region
is accepted (`width > 0 && height > 0`), or `none` when it is rejected as
invalid. -/
def SaveFaceImageWithId_region (cols rows : Int) (face_rect : FaceRect) :
    Option RegionOfInterest :=
  let x := max 0 face_rect.x
  let y := max 0 face_rect.y
  let width := min face_rect.width (int32 (cols - x))
  let height := min face_rect.height (int32 (rows - y))
  if width > 0 ∧ height > 0 then
    some { x := x, y := y, width := width, height := height }
  else none

/-- The members of `inspire::FaceSearchResult` (not declared in the sources)
that `CompareFaceWithDatabase` reads. -/
structure FaceSearchResult where
  id : Int
  similarity : FloatValue
deriving DecidableEq, Repr

/-- What `CompareFaceWithDatabase` returns and leaves in its two reference
parameters `matched_id` and `similarity`. -/
structure CompareResult where
  ret : Bool
  matched_id : Int
  similarity : FloatValue
deriving DecidableEq, Repr

/-- The function `CompareFaceWithDatabase` of `camera_face_recognizer.cpp`,
given what the database answers: `face_count` from `GetFaceFeatureCount()`,
and the code `search_result` and the list `search_results` of
`SearchFaceFeatureTopK` (called only when the database is not empty). -/
def CompareFaceWithDatabase (face_count : Int) (search_result : Int)
    (search_results : List FaceSearchResult) : CompareResult :=
  if face_count = 0 then
    { ret := false, matched_id := -1, similarity := FloatValue.finite 0 }
  else if search_result = 0 ∧ search_results.isEmpty = false then
    let top_match := search_results.headD { id := 0, similarity := FloatValue.finite 0 }
    { ret := true, matched_id := top_match.id, similarity := top_match.similarity }
  else
    { ret := false, matched_id := -1, similarity := FloatValue.finite 0 }

/-- What the external calls answer while the camera loop handles one face:
the result of `HasGlassesWithReflections(frame, face)`, the code of
`FaceFeatureExtract`, and the answers of the database. -/
structure FaceAnswers where
  has_glasses_reflection : Bool
  extract_result : Int
  face_count : Int
  search_result : Int
  search_results : List FaceSearchResult
deriving DecidableEq, Repr

/-- How the body of the camera loop leaves the `i`-th face: skipped as not
frontal, skipped as blurry, skipped for glasses reflection, feature
extraction called and failed, or extraction succeeded and the face was
compared with the database (`saved` tells whether `SaveFaceImageWithId` was
called). -/
inductive FaceStep where
  | skippedNotFrontal
  | skippedBlurry
  | skippedReflection
  | extractFailed
  | compared (result : CompareResult) (saved : Bool)
deriving DecidableEq, Repr

/-- The value of `quality_score` for the `i`-th face: `0.0f`, replaced by
`face_quality_confidence[i]` when `i < face_quality_confidence.size()`. -/
def qualityScore (face_quality_confidence : List FloatValue) (i : Nat) : FloatValue :=
  if i < face_quality_confidence.length then
    face_quality_confidence.getD i (FloatValue.finite 0)
  else FloatValue.finite 0

/-- The body of the loop over `results` in `main` of
`camera_face_recognizer.cpp` for the `i`-th face `face`, as far as it decides
what is called; `quality_threshold` is `0.5f`. -/
def processFace (face_quality_confidence : List FloatValue) (i : Nat)
    (face : FaceTrackWrap) (answers : FaceAnswers) : FaceStep :=
  let quality_score := qualityScore face_quality_confidence i
  let is_frontal := IsFrontalFace face
  let has_glasses_reflection := answers.has_glasses_reflection
  let quality_threshold := FloatValue.finite (1 / 2)
  if !is_frontal then FaceStep.skippedNotFrontal
  else if quality_score.lt quality_threshold then FaceStep.skippedBlurry
  else if has_glasses_reflection then FaceStep.skippedReflection
  else if answers.extract_result ≠ 0 then FaceStep.extractFailed
  else
    let r := CompareFaceWithDatabase answers.face_count answers.search_result
      answers.search_results
    FaceStep.compared r (r.ret && decide (r.matched_id ≠ -1))

/-- Whether `FaceFeatureExtract` was called for the face. -/
def FaceStep.extractionAttempted : FaceStep → Bool
  | FaceStep.skippedNotFrontal => false
  | FaceStep.skippedBlurry => false
  | FaceStep.skippedReflection => false
  | FaceStep.extractFailed => true
  | FaceStep.compared _ _ => true

/-- Whether the face was recognized, that is compared with the database. -/
def FaceStep.recognized : FaceStep → Bool
  | FaceStep.compared _ _ => true
  | _ => false

/-! ## Auxiliary facts on `Intersect` -/

theorem Rect.Intersect_size_nonneg (a b : Rect) :
    0 ≤ (a.Intersect b).width ∧ 0 ≤ (a.Intersect b).height := by
  simp only [Rect.Intersect]
  constructor <;> omega

/-- The width of the intersection is bounded by both widths, when the
intersection has a positive width or both operands have a non-negative
one. -/
theorem Rect.Intersect_width_le (a b : Rect)
    (h : 0 < (a.Intersect b).width ∨ (0 ≤ a.width ∧ 0 ≤ b.width)) :
    (a.Intersect b).width ≤ a.width ∧ (a.Intersect b).width ≤ b.width := by
  simp only [Rect.Intersect] at h ⊢
  constructor <;> omega

/-- The height of the intersection is bounded by both heights, when the
intersection has a positive height or both operands have a non-negative
one. -/
theorem Rect.Intersect_height_le (a b : Rect)
    (h : 0 < (a.Intersect b).height ∨ (0 ≤ a.height ∧ 0 ≤ b.height)) :
    (a.Intersect b).height ≤ a.height ∧ (a.Intersect b).height ≤ b.height := by
  simp only [Rect.Intersect] at h ⊢
  constructor <;> omega

/-- When the width and the height of the intersection are bounded by those
of the operands, its area is bounded by the area of either operand. -/
theorem Rect.Intersect_Area_le_of_le (a b : Rect)
    (hw : (a.Intersect b).width ≤ a.width ∧ (a.Intersect b).width ≤ b.width)
    (hh : (a.Intersect b).height ≤ a.height ∧ (a.Intersect b).height ≤ b.height) :
    (a.Intersect b).Area ≤ a.Area ∧ (a.Intersect b).Area ≤ b.Area := by
  obtain ⟨hw0, hh0⟩ := Rect.Intersect_size_nonneg a b
  unfold Rect.Area
  constructor
  · exact mul_le_mul hw.1 hh.1 hh0 (le_trans hw0 hw.1)
  · exact mul_le_mul hw.2 hh.2 hh0 (le_trans hw0 hw.2)

/-! ## Rect: IoU, Intersect, Create, Contains, SafeRect -/

/-- C1: for all rectangles `A` and `B`, `A.IoU(B)` (intersection area divided
by union area, 0 without overlap) lies in the closed interval `[0, 1]`. -/
theorem Rect.IoU_mem_unit_interval (a b : Rect) :
    0 ≤ a.IoU b ∧ a.IoU b ≤ 1 := by
  unfold Rect.IoU
  simp only
  split_ifs with h
  · exact ⟨le_refl 0, zero_le_one⟩
  · push_neg at h
    obtain ⟨hw, hh⟩ := h
    obtain ⟨hA, hB⟩ := Rect.Intersect_Area_le_of_le a b
      (Rect.Intersect_width_le a b (Or.inl hw)) (Rect.Intersect_height_le a b (Or.inl hh))
    have hI : 0 < (a.Intersect b).Area := by
      unfold Rect.Area
      exact mul_pos hw hh
    have hU : (a.Intersect b).Area ≤ a.UnionArea b := by
      unfold Rect.UnionArea
      omega
    have hUpos : (0 : ℚ) < (a.UnionArea b : ℚ) := by
      exact_mod_cast lt_of_lt_of_le hI hU
    have hIq : (0 : ℚ) ≤ ((a.Intersect b).Area : ℚ) := by
      exact_mod_cast hI.le
    have hUq : ((a.Intersect b).Area : ℚ) ≤ (a.UnionArea b : ℚ) := by
      exact_mod_cast hU
    exact ⟨div_nonneg hIq hUpos.le, (div_le_one hUpos).mpr hUq⟩

/-- C2, as stated, fails: the default rectangle `Rect(0,0,0,0)` has no
overlap with itself (its intersection with itself is empty), so its IoU with
itself is 0, not 1. -/
theorem Rect.IoU_self_empty_ne_one :
    Rect.IoU ⟨0, 0, 0, 0⟩ ⟨0, 0, 0, 0⟩ ≠ 1 := by
  simp [Rect.IoU, Rect.Intersect]

/-- C2, amended: for every rectangle `A` with positive width and positive
height, `A.IoU(A) == 1`. -/
theorem Rect.IoU_self (a : Rect) (hw : 0 < a.width) (hh : 0 < a.height) :
    a.IoU a = 1 := by
  have hI : a.Intersect a = a := by
    cases a
    simp only [Rect.Intersect, Rect.mk.injEq] at hw hh ⊢
    refine ⟨?_, ?_, ?_, ?_⟩ <;> omega
  have hA : 0 < a.Area := by
    unfold Rect.Area
    exact mul_pos hw hh
  have hAq : ((a.Area : ℤ) : ℚ) ≠ 0 := by
    exact_mod_cast hA.ne.symm
  unfold Rect.IoU Rect.UnionArea
  simp only [hI]
  rw [if_neg (by omega)]
  have : a.Area + a.Area - a.Area = a.Area := by omega
  rw [this]
  exact div_self hAq

theorem Rect.IoU_self_witness :
    0 < (Rect.mk 0 0 10 10).width ∧ 0 < (Rect.mk 0 0 10 10).height ∧
    Rect.IoU ⟨0, 0, 10, 10⟩ ⟨0, 0, 10, 10⟩ = 1 :=
  ⟨by decide, by decide, Rect.IoU_self ⟨0, 0, 10, 10⟩ (by decide) (by decide)⟩

/-- C3, as stated, fails: the type enforces no sign on the size, and a
rectangle of negative width has a negative area. For `Rect(0,0,-1,10)` and
`Rect(0,0,-1,1)` the areas are `-10` and `-1`, while the intersection is
empty and has area 0 (with the extent left negative it would have area
`-1`): in either case more than `-10`. -/
theorem Rect.Intersect_Area_not_le :
    ¬ ((Rect.Intersect ⟨0, 0, -1, 10⟩ ⟨0, 0, -1, 1⟩).Area
        ≤ min (Rect.Area ⟨0, 0, -1, 10⟩) (Rect.Area ⟨0, 0, -1, 1⟩)) := by
  decide

/-- C3, amended: for all rectangles `A` and `B` of non-negative width and
height, `A.Intersect(B).Area() <= min(A.Area(), B.Area())`, where `Area()`
is `width*height`. -/
theorem Rect.Intersect_Area_le_min (a b : Rect)
    (haw : 0 ≤ a.width) (hah : 0 ≤ a.height)
    (hbw : 0 ≤ b.width) (hbh : 0 ≤ b.height) :
    (a.Intersect b).Area ≤ min a.Area b.Area := by
  rw [le_min_iff]
  exact Rect.Intersect_Area_le_of_le a b
    (Rect.Intersect_width_le a b (Or.inr ⟨haw, hbw⟩))
    (Rect.Intersect_height_le a b (Or.inr ⟨hah, hbh⟩))

theorem Rect.Intersect_Area_le_min_witness :
    0 ≤ (Rect.mk 0 0 10 10).width ∧ 0 ≤ (Rect.mk 0 0 10 10).height ∧
    0 ≤ (Rect.mk 5 5 10 10).width ∧ 0 ≤ (Rect.mk 5 5 10 10).height ∧
    (Rect.Intersect ⟨0, 0, 10, 10⟩ ⟨5, 5, 10, 10⟩).Area
      ≤ min (Rect.Area ⟨0, 0, 10, 10⟩) (Rect.Area ⟨5, 5, 10, 10⟩) :=
  ⟨by decide, by decide, by decide, by decide,
    Rect.Intersect_Area_le_min ⟨0, 0, 10, 10⟩ ⟨5, 5, 10, 10⟩
      (by decide) (by decide) (by decide) (by decide)⟩

/-- Rectangles separated along both axes have an empty intersection, of area
0, below the area of either operand. -/
theorem Rect.Intersect_separated_Area :
    Rect.Intersect ⟨0, 0, 1, 1⟩ ⟨5, 5, 1, 1⟩ = ⟨5, 5, 0, 0⟩ ∧
    (Rect.Intersect ⟨0, 0, 1, 1⟩ ⟨5, 5, 1, 1⟩).Area = 0 := by
  decide

/-- C4: for `A = Rect(0,0,10,10)` and `B = Rect(5,5,10,10)`, `A.Intersect(B)`
is `Rect(5,5,5,5)`, the union area is 175 and `A.IoU(B)` is exactly
`25/175`. -/
theorem Rect.scenario_overlap :
    Rect.Intersect ⟨0, 0, 10, 10⟩ ⟨5, 5, 10, 10⟩ = ⟨5, 5, 5, 5⟩ ∧
    Rect.UnionArea ⟨0, 0, 10, 10⟩ ⟨5, 5, 10, 10⟩ = 175 ∧
    Rect.IoU ⟨0, 0, 10, 10⟩ ⟨5, 5, 10, 10⟩ = 25 / 175 := by
  refine ⟨by decide, by decide, ?_⟩
  norm_num [Rect.IoU, Rect.Intersect, Rect.UnionArea, Rect.Area]

/-- C5: for every pair of points `topLeft` and `bottomRight`, the rectangle
`R = Rect::Create(topLeft, bottomRight)` has `R.TopLeft() == topLeft` and
`R.BottomRight() == bottomRight` exactly. -/
theorem Rect.Create_corners (topLeft bottomRight : Point) :
    (Rect.Create topLeft bottomRight).TopLeft = topLeft ∧
    (Rect.Create topLeft bottomRight).BottomRight = bottomRight := by
  cases topLeft
  cases bottomRight
  simp [Rect.Create, Rect.TopLeft, Rect.BottomRight]

/-- C7: `A.Contains(B)` holds exactly when `B` lies within `A` on all four
sides, boundaries included (`B.x >= A.x`, `B.y >= A.y`,
`B.x+B.width <= A.x+A.width`, `B.y+B.height <= A.y+A.height`); in
particular every rectangle contains itself. -/
theorem Rect.Contains_iff (a b : Rect) :
    (a.Contains b = true ↔
      (b.x ≥ a.x ∧ b.y ≥ a.y ∧ b.x + b.width ≤ a.x + a.width ∧
        b.y + b.height ≤ a.y + a.height)) ∧
    a.Contains a = true := by
  constructor
  · simp [Rect.Contains, and_assoc]
  · simp [Rect.Contains]

/-- C8: for every rectangle `R` and every bound `W > 0`, `H > 0`, the result
`S = R.SafeRect(W, H)` lies inside the image bounds: `S.x >= 0`, `S.y >= 0`,
`S.x + S.width <= W` and `S.y + S.height <= H`. -/
theorem Rect.SafeRect_in_bounds (r : Rect) (W H : Int) (_hW : 0 < W) (_hH : 0 < H) :
    (r.SafeRect W H).x ≥ 0 ∧ (r.SafeRect W H).y ≥ 0 ∧
    (r.SafeRect W H).x + (r.SafeRect W H).width ≤ W ∧
    (r.SafeRect W H).y + (r.SafeRect W H).height ≤ H := by
  simp only [Rect.SafeRect]
  refine ⟨?_, ?_, ?_, ?_⟩ <;> omega

theorem Rect.SafeRect_in_bounds_witness :
    (0 : Int) < 100 ∧ (0 : Int) < 100 ∧
    (Rect.SafeRect ⟨-5, 90, 20, 20⟩ 100 100).x ≥ 0 ∧
    (Rect.SafeRect ⟨-5, 90, 20, 20⟩ 100 100).y ≥ 0 ∧
    (Rect.SafeRect ⟨-5, 90, 20, 20⟩ 100 100).x
      + (Rect.SafeRect ⟨-5, 90, 20, 20⟩ 100 100).width ≤ 100 ∧
    (Rect.SafeRect ⟨-5, 90, 20, 20⟩ 100 100).y
      + (Rect.SafeRect ⟨-5, 90, 20, 20⟩ 100 100).height ≤ 100 :=
  ⟨by decide, by decide,
    Rect.SafeRect_in_bounds ⟨-5, 90, 20, 20⟩ 100 100 (by decide) (by decide)⟩

/-! ## TransformMatrix: inverse -/

/-- C6: for every `TransformMatrix` `T` whose linear part is non-singular
(`a11*a22 - a12*a21 != 0`), `T.Multiply(T.GetInverse())` is the identity
transform `[1 0 0; 0 1 0]`, in exact arithmetic; the same holds with the two
factors exchanged, so the statement does not depend on the composition
convention of `Multiply`. -/
theorem TransformMatrix.Multiply_GetInverse (t : TransformMatrix)
    (h : t.a11 * t.a22 - t.a12 * t.a21 ≠ 0) :
    t.Multiply t.GetInverse = TransformMatrix.Identity ∧
    t.GetInverse.Multiply t = TransformMatrix.Identity := by
  have hd : t.det ≠ 0 := h
  unfold TransformMatrix.Multiply TransformMatrix.GetInverse TransformMatrix.Identity
  simp only [TransformMatrix.mk.injEq]
  unfold TransformMatrix.det at hd ⊢
  refine ⟨⟨?_, ?_, ?_, ?_, ?_, ?_⟩, ⟨?_, ?_, ?_, ?_, ?_, ?_⟩⟩ <;> field_simp <;> ring

theorem TransformMatrix.Multiply_GetInverse_witness :
    (TransformMatrix.mk 2 1 3 0 4 5).a11 * (TransformMatrix.mk 2 1 3 0 4 5).a22
      - (TransformMatrix.mk 2 1 3 0 4 5).a12 * (TransformMatrix.mk 2 1 3 0 4 5).a21 ≠ 0 ∧
    TransformMatrix.Multiply ⟨2, 1, 3, 0, 4, 5⟩
        (TransformMatrix.GetInverse ⟨2, 1, 3, 0, 4, 5⟩) = TransformMatrix.Identity ∧
    TransformMatrix.Multiply (TransformMatrix.GetInverse ⟨2, 1, 3, 0, 4, 5⟩)
        ⟨2, 1, 3, 0, 4, 5⟩ = TransformMatrix.Identity :=
  ⟨by norm_num, TransformMatrix.Multiply_GetInverse ⟨2, 1, 3, 0, 4, 5⟩ (by norm_num)⟩

/-! ## Similarity-transform estimation: the quarter-turn scenario -/

theorem centroid_scenario_src : centroid [⟨0, 0⟩, ⟨1, 0⟩] = (1 / 2, 0) := by
  norm_num [centroid]

theorem centroid_scenario_dst : centroid [⟨0, 0⟩, ⟨0, 1⟩] = (0, 1 / 2) := by
  norm_num [centroid]

theorem centredSquares_scenario : centredSquares [⟨0, 0⟩, ⟨1, 0⟩] = 1 / 2 := by
  norm_num [centredSquares, centroid_scenario_src]

theorem covariance_scenario :
    covariance [⟨0, 0⟩, ⟨1, 0⟩] [⟨0, 0⟩, ⟨0, 1⟩] = ⟨0, 0, 1 / 4, 0⟩ := by
  norm_num [covariance, centroid_scenario_src, centroid_scenario_dst]

/-- Every singular-value decomposition of the covariance `[0 0; 1/4 0]` of
the scenario has singular values `1/4` and `0`, and its orthogonal factors
are signed permutations fixed up to the signs of their columns. -/
theorem svd_scenario (f : SVD2) (h : IsSVD ⟨0, 0, 1 / 4, 0⟩ f) :
    f.d2 = 0 ∧ f.d1 = 1 / 4 ∧ f.U.m11 = 0 ∧ f.U.m22 = 0 ∧ f.V.m12 = 0 ∧ f.V.m21 = 0 ∧
    f.U.m21 * f.V.m11 = 1 ∧ (f.U.m12 * f.V.m22 = 1 ∨ f.U.m12 * f.V.m22 = -1) := by
  rcases f with ⟨⟨u11, u12, u21, u22⟩, d1, d2, ⟨v11, v12, v21, v22⟩⟩
  obtain ⟨hU, hV, hd2, hd12, hM⟩ := h
  simp only [Mat2.mul, Mat2.transpose, Mat2.one, Mat2.diag, Mat2.mk.injEq] at hU hV hM
  obtain ⟨hUa, hUb, -, hUc⟩ := hU
  obtain ⟨hVa, hVb, -, hVc⟩ := hV
  obtain ⟨h11, h12, h21, h22⟩ := hM
  simp only
  -- the determinants of the orthogonal factors are ±1
  have hdU : (u11 * u22 - u12 * u21) ^ 2 = 1 := by
    linear_combination (u12 * u12 + u22 * u22) * hUa + hUc - (u11 * u12 + u21 * u22) * hUb
  have hdV : (v11 * v22 - v12 * v21) ^ 2 = 1 := by
    linear_combination (v12 * v12 + v22 * v22) * hVa + hVc - (v11 * v12 + v21 * v22) * hVb
  -- the covariance is singular, hence so is the diagonal factor
  have hprod : (u11 * u22 - u12 * u21) * (v11 * v22 - v12 * v21) * (d1 * d2) = 0 := by
    linear_combination
      ((u21 * d1 + u22 * 0) * v21 + (u21 * 0 + u22 * d2) * v22) * h11
        - ((u21 * d1 + u22 * 0) * v11 + (u21 * 0 + u22 * d2) * v12) * h12
  have hdd : d1 * d2 = 0 := by
    have hne : (u11 * u22 - u12 * u21) * (v11 * v22 - v12 * v21) ≠ 0 := by
      intro h0
      have : ((u11 * u22 - u12 * u21) * (v11 * v22 - v12 * v21)) ^ 2 = 1 := by
        rw [mul_pow, hdU, hdV]; norm_num
      rw [h0] at this
      norm_num at this
    exact (mul_eq_zero.mp hprod).resolve_left hne
  have hd2z : d2 = 0 := by
    rcases mul_eq_zero.mp hdd with h0 | h0
    · linarith
    · exact h0
  subst hd2z
  have e11 : u11 * d1 * v11 = 0 := by linear_combination h11
  have e12 : u11 * d1 * v21 = 0 := by linear_combination h12
  have e21 : u21 * d1 * v11 = 1 / 4 := by linear_combination h21
  have e22 : u21 * d1 * v21 = 0 := by linear_combination h22
  have hu11 : u11 = 0 := by linear_combination 4 * u21 * e11 - 4 * u11 * e21
  have hv21 : v21 = 0 := by linear_combination 4 * v11 * e22 - 4 * v21 * e21
  subst hu11
  subst hv21
  have hu21 : u21 * u21 = 1 := by linear_combination hUa
  have hv11 : v11 * v11 = 1 := by linear_combination hVa
  have hu22 : u22 = 0 := by linear_combination u21 * hUb - u22 * hu21
  have hv12 : v12 = 0 := by linear_combination v11 * hVb - v12 * hv11
  subst hu22
  subst hv12
  have hu12 : u12 * u12 = 1 := by linear_combination hUc
  have hv22 : v22 * v22 = 1 := by linear_combination hVc
  have hw2 : (u21 * v11) ^ 2 = 1 := by
    linear_combination v11 * v11 * hu21 + hv11
  have hwd : (u21 * v11) * d1 = 1 / 4 := by linear_combination e21
  have hw : u21 * v11 = 1 := by
    have hcases : (u21 * v11 - 1) * (u21 * v11 + 1) = 0 := by linear_combination hw2
    rcases mul_eq_zero.mp hcases with h1 | h1
    · linarith
    · have hneg : u21 * v11 = -1 := by linarith
      rw [hneg] at hwd
      linarith
  have hd1 : d1 = 1 / 4 := by
    rw [hw] at hwd
    linarith
  have hz : u12 * v22 = 1 ∨ u12 * v22 = -1 := by
    have hz2 : (u12 * v22 - 1) * (u12 * v22 + 1) = 0 := by
      linear_combination v22 * v22 * hu12 + hv22
    rcases mul_eq_zero.mp hz2 with h1 | h1
    · left; linarith
    · right; linarith
  exact ⟨rfl, hd1, rfl, rfl, rfl, rfl, hw, hz⟩

/-- The quarter turn `[0 -1 0; 1 0 0]` maps each source point of the scenario
onto its destination point: its squared residual is zero. -/
theorem squaredResidual_scenario_zero :
    squaredResidual ⟨0, -1, 0, 1, 0, 0⟩ [⟨0, 0⟩, ⟨1, 0⟩] [⟨0, 0⟩, ⟨0, 1⟩] = 0 := by
  norm_num [squaredResidual]

/-- On the scenario a similarity transform `[a -b tx; b a ty]` with zero
squared residual, the least value a sum of squares can take, is the quarter
turn: the least-squares answer does not depend on how the minimiser is
computed. -/
theorem squaredResidual_scenario_unique (a b tx ty : ℚ)
    (h : squaredResidual ⟨a, -b, tx, b, a, ty⟩ [⟨0, 0⟩, ⟨1, 0⟩] [⟨0, 0⟩, ⟨0, 1⟩] = 0) :
    (⟨a, -b, tx, b, a, ty⟩ : TransformMatrix) = ⟨0, -1, 0, 1, 0, 0⟩ := by
  simp only [squaredResidual, List.zip_cons_cons, List.zip_nil_right, List.map_cons,
    List.map_nil, List.sum_cons, List.sum_nil] at h
  norm_num at h
  have h1 : tx = 0 := by nlinarith [sq_nonneg tx, sq_nonneg ty, sq_nonneg (a + tx), sq_nonneg (1 - (b + ty))]
  have h2 : ty = 0 := by nlinarith [sq_nonneg tx, sq_nonneg ty, sq_nonneg (a + tx), sq_nonneg (1 - (b + ty))]
  have h3 : a + tx = 0 := by nlinarith [sq_nonneg tx, sq_nonneg ty, sq_nonneg (a + tx), sq_nonneg (1 - (b + ty))]
  have h4 : 1 - (b + ty) = 0 := by nlinarith [sq_nonneg tx, sq_nonneg ty, sq_nonneg (a + tx), sq_nonneg (1 - (b + ty))]
  have ha : a = 0 := by linarith
  have hb : b = 1 := by linarith
  subst h1 h2 ha hb
  rfl

/-- C9: for source points `{(0,0),(1,0)}` and destination points
`{(0,0),(0,1)}`, both `SimilarityTransformEstimate` and
`SimilarityTransformEstimateUmeyama` return the transform with rotation 90
degrees, scale 1 and translation `(0,0)`, the matrix `[0 -1 0; 1 0 0]`;
for the Umeyama estimator whatever singular-value decomposition of the
covariance its decomposition routine returns. -/
theorem SimilarityTransformEstimate_quarter_turn (svd : Mat2 → SVD2)
    (hsvd : IsSVD (covariance [⟨0, 0⟩, ⟨1, 0⟩] [⟨0, 0⟩, ⟨0, 1⟩])
      (svd (covariance [⟨0, 0⟩, ⟨1, 0⟩] [⟨0, 0⟩, ⟨0, 1⟩]))) :
    SimilarityTransformEstimate [⟨0, 0⟩, ⟨1, 0⟩] [⟨0, 0⟩, ⟨0, 1⟩]
      = some ⟨0, -1, 0, 1, 0, 0⟩ ∧
    SimilarityTransformEstimateUmeyama svd [⟨0, 0⟩, ⟨1, 0⟩] [⟨0, 0⟩, ⟨0, 1⟩]
      = some ⟨0, -1, 0, 1, 0, 0⟩ := by
  constructor
  · norm_num [SimilarityTransformEstimate, centroid_scenario_src, centroid_scenario_dst,
      centredSquares_scenario]
  · rw [covariance_scenario] at hsvd
    unfold SimilarityTransformEstimateUmeyama
    simp only [covariance_scenario, centroid_scenario_src, centroid_scenario_dst,
      centredSquares_scenario]
    generalize svd ⟨0, 0, 1 / 4, 0⟩ = f at hsvd ⊢
    obtain ⟨hd2, hd1, hu11, hu22, hv12, hv21, hw, hz⟩ := svd_scenario f hsvd
    rcases f with ⟨⟨u11, u12, u21, u22⟩, d1, d2, ⟨v11, v12, v21, v22⟩⟩
    simp only at hd2 hd1 hu11 hu22 hv12 hv21 hw hz
    subst hd2 hd1 hu11 hu22 hv12 hv21
    have hdet : Mat2.det ⟨0, u12, u21, 0⟩ * Mat2.det ⟨v11, 0, 0, v22⟩ = -(u12 * v22) := by
      simp only [Mat2.det]
      linear_combination (-(u12 * v22)) * hw
    simp only [hdet]
    rcases hz with hz | hz
    · norm_num [Mat2.mul, Mat2.diag, Mat2.transpose, hz, hw]
    · norm_num [Mat2.mul, Mat2.diag, Mat2.transpose, hz, hw]

theorem SimilarityTransformEstimate_quarter_turn_witness :
    IsSVD (covariance [⟨0, 0⟩, ⟨1, 0⟩] [⟨0, 0⟩, ⟨0, 1⟩])
      ((fun _ => (⟨⟨0, 1, 1, 0⟩, 1 / 4, 0, ⟨1, 0, 0, 1⟩⟩ : SVD2))
        (covariance [⟨0, 0⟩, ⟨1, 0⟩] [⟨0, 0⟩, ⟨0, 1⟩])) ∧
    SimilarityTransformEstimate [⟨0, 0⟩, ⟨1, 0⟩] [⟨0, 0⟩, ⟨0, 1⟩]
      = some ⟨0, -1, 0, 1, 0, 0⟩ ∧
    SimilarityTransformEstimateUmeyama (fun _ => ⟨⟨0, 1, 1, 0⟩, 1 / 4, 0, ⟨1, 0, 0, 1⟩⟩)
      [⟨0, 0⟩, ⟨1, 0⟩] [⟨0, 0⟩, ⟨0, 1⟩] = some ⟨0, -1, 0, 1, 0, 0⟩ :=
  ⟨by norm_num [IsSVD, covariance_scenario, Mat2.mul, Mat2.transpose, Mat2.one, Mat2.diag],
    SimilarityTransformEstimate_quarter_turn
      (fun _ => ⟨⟨0, 1, 1, 0⟩, 1 / 4, 0, ⟨1, 0, 0, 1⟩⟩)
      (by norm_num [IsSVD, covariance_scenario, Mat2.mul, Mat2.transpose, Mat2.one,
        Mat2.diag])⟩

/-! ## TimeSpend: statistics over a run of Start/Stop pairs -/

theorem TimeSpend.duration_lt (p : Nat × Nat) : TimeSpend.duration p < 2 ^ 64 := by
  unfold TimeSpend.duration u64sub
  exact Nat.mod_lt _ (by decide)

/-- One `Start(); Stop();` pair adds the measured duration to the sums. -/
theorem TimeSpend.pair_fields (s : TimeSpend) (p : Nat × Nat) :
    ((s.Start p.1).Stop p.2).total_ = u64 (s.total_ + TimeSpend.duration p) ∧
    ((s.Start p.1).Stop p.2).count_ = u64 (s.count_ + 1) ∧
    ((s.Start p.1).Stop p.2).min_ = min s.min_ (TimeSpend.duration p) ∧
    ((s.Start p.1).Stop p.2).max_ = max s.max_ (TimeSpend.duration p) := by
  have hd : u64sub (u64 p.2) (u64 p.1) = TimeSpend.duration p := by
    simp [u64sub, u64, TimeSpend.duration]
  simp [TimeSpend.Start, TimeSpend.Stop, hd]

theorem TimeSpend.run_cons (s : TimeSpend) (p : Nat × Nat) (tl : List (Nat × Nat)) :
    s.run (p :: tl) = ((s.Start p.1).Stop p.2).run tl := by
  simp [TimeSpend.run]

/-- The counter after a run, whatever the length of the run: it wraps at
`2^64`. -/
theorem TimeSpend.run_count_mod (clock : List (Nat × Nat)) :
    ∀ s : TimeSpend, s.count_ < 2 ^ 64 →
      (s.run clock).count_ = (s.count_ + clock.length) % 2 ^ 64 := by
  induction clock with
  | nil =>
    intro s hs
    simp only [TimeSpend.run, List.foldl_nil, List.length_nil, Nat.add_zero]
    exact (Nat.mod_eq_of_lt hs).symm
  | cons p tl ih =>
    intro s _
    obtain ⟨_, hc, _, _⟩ := TimeSpend.pair_fields s p
    have hlt : ((s.Start p.1).Stop p.2).count_ < 2 ^ 64 := by
      rw [hc]
      exact Nat.mod_lt _ (by decide)
    rw [TimeSpend.run_cons, ih _ hlt, hc, List.length_cons]
    unfold u64
    omega

/-- The four accumulators after a run that overflows neither the total nor
the counter. -/
theorem TimeSpend.run_fields (clock : List (Nat × Nat)) :
    ∀ s : TimeSpend,
      s.total_ + (clock.map TimeSpend.duration).sum < 2 ^ 64 →
      s.count_ + clock.length < 2 ^ 64 →
      (s.run clock).total_ = s.total_ + (clock.map TimeSpend.duration).sum ∧
      (s.run clock).count_ = s.count_ + clock.length ∧
      (s.run clock).min_ = (clock.map TimeSpend.duration).foldl min s.min_ ∧
      (s.run clock).max_ = (clock.map TimeSpend.duration).foldl max s.max_ := by
  induction clock with
  | nil =>
    intro s _ _
    simp [TimeSpend.run]
  | cons p tl ih =>
    intro s ht hc
    obtain ⟨h1, h2, h3, h4⟩ := TimeSpend.pair_fields s p
    simp only [List.map_cons, List.sum_cons, List.length_cons] at ht hc
    have e1 : ((s.Start p.1).Stop p.2).total_ = s.total_ + TimeSpend.duration p := by
      rw [h1]
      unfold u64
      exact Nat.mod_eq_of_lt (by omega)
    have e2 : ((s.Start p.1).Stop p.2).count_ = s.count_ + 1 := by
      rw [h2]
      unfold u64
      exact Nat.mod_eq_of_lt (by omega)
    obtain ⟨r1, r2, r3, r4⟩ := ih ((s.Start p.1).Stop p.2)
      (by rw [e1]; omega) (by rw [e2]; omega)
    rw [TimeSpend.run_cons]
    simp only [List.map_cons, List.sum_cons, List.length_cons, List.foldl_cons]
    refine ⟨?_, ?_, ?_, ?_⟩
    · rw [r1, e1]; omega
    · rw [r2, e2]; omega
    · rw [r3, h3]
    · rw [r4, h4]

theorem foldl_min_spec (l : List Nat) :
    ∀ m : Nat, (l.foldl min m = m ∨ l.foldl min m ∈ l) ∧ l.foldl min m ≤ m ∧
      ∀ d ∈ l, l.foldl min m ≤ d := by
  induction l with
  | nil => intro m; simp
  | cons a tl ih =>
    intro m
    obtain ⟨h1, h2, h3⟩ := ih (min m a)
    simp only [List.foldl_cons, List.mem_cons]
    refine ⟨?_, ?_, ?_⟩
    · rcases h1 with h | h
      · rcases Nat.le_total m a with hma | ham
        · left; rw [h]; exact Nat.min_eq_left hma
        · right; left; rw [h]; exact Nat.min_eq_right ham
      · right; right; exact h
    · exact le_trans h2 (Nat.min_le_left m a)
    · intro d hd
      rcases hd with rfl | hd
      · exact le_trans h2 (Nat.min_le_right m d)
      · exact h3 d hd

theorem foldl_max_spec (l : List Nat) :
    ∀ m : Nat, (l.foldl max m = m ∨ l.foldl max m ∈ l) ∧ m ≤ l.foldl max m ∧
      ∀ d ∈ l, d ≤ l.foldl max m := by
  induction l with
  | nil => intro m; simp
  | cons a tl ih =>
    intro m
    obtain ⟨h1, h2, h3⟩ := ih (max m a)
    simp only [List.foldl_cons, List.mem_cons]
    refine ⟨?_, ?_, ?_⟩
    · rcases h1 with h | h
      · rcases Nat.le_total m a with hma | ham
        · right; left; rw [h]; exact Nat.max_eq_right hma
        · left; rw [h]; exact Nat.max_eq_left ham
      · right; right; exact h
    · exact le_trans (Nat.le_max_left m a) h2
    · intro d hd
      rcases hd with rfl | hd
      · exact le_trans (Nat.le_max_right m d) h2
      · exact h3 d hd

/-- The value of `Count()` after a run of any length. -/
theorem TimeSpend.Count_run (clock : List (Nat × Nat)) (s : TimeSpend)
    (hs : s.count_ < 2 ^ 64) :
    (s.run clock).Count = (s.count_ + clock.length) % 2 ^ 64 :=
  TimeSpend.run_count_mod clock s hs

/-- C10, as stated, fails on the count: `count_` is a `uint64_t` and wraps.
After `2^64` Start/Stop pairs that each measure the duration 0 (the sum of
the durations, 0, is below `2^64`), `Count()` is 0, not the number of
pairs. -/
theorem TimeSpend.run_count_wraps :
    1 ≤ (List.replicate (2 ^ 64) ((0 : Nat), (0 : Nat))).length ∧
    ((List.replicate (2 ^ 64) ((0 : Nat), (0 : Nat))).map TimeSpend.duration).sum < 2 ^ 64 ∧
    ((TimeSpend.new "").run (List.replicate (2 ^ 64) ((0 : Nat), (0 : Nat)))).Count
      ≠ (List.replicate (2 ^ 64) ((0 : Nat), (0 : Nat))).length := by
  have hd : TimeSpend.duration ((0 : Nat), (0 : Nat)) = 0 := by decide
  have h0 : (TimeSpend.new "").count_ < 2 ^ 64 := by decide
  have e0 : (TimeSpend.new "").count_ = 0 := rfl
  refine ⟨?_, ?_, ?_⟩
  · rw [List.length_replicate]
    exact Nat.one_le_two_pow
  · rw [List.map_replicate, hd, List.sum_replicate, smul_zero]
    exact Nat.two_pow_pos 64
  · rw [TimeSpend.Count_run _ _ h0, List.length_replicate, e0, Nat.zero_add, Nat.mod_self]
    exact (Nat.two_pow_pos 64).ne

/-- C10, amended: for every `TimeSpend` that is freshly constructed or Reset
and then undergoes `n` Start()/Stop() pairs with `1 <= n < 2^64` and measured
durations `d_1..d_n` (`d_i = stop - start` in `uint64_t`, their sum below
`2^64`): `Count() = n`, `Total() = d_1+...+d_n`, `Min()` is the least and
`Max()` the greatest of the `d_i`, and `Average() = floor(Total()/Count())`. -/
theorem TimeSpend.run_statistics (s : TimeSpend) (clock : List (Nat × Nat))
    (hs : (∃ name : String, s = TimeSpend.new name) ∨ (∃ ts : TimeSpend, s = ts.Reset))
    (hn : 1 ≤ clock.length) (hcount : clock.length < 2 ^ 64)
    (hsum : (clock.map TimeSpend.duration).sum < 2 ^ 64) :
    (s.run clock).Count = clock.length ∧
    (s.run clock).Total = (clock.map TimeSpend.duration).sum ∧
    ((s.run clock).Min ∈ clock.map TimeSpend.duration ∧
      ∀ d ∈ clock.map TimeSpend.duration, (s.run clock).Min ≤ d) ∧
    ((s.run clock).Max ∈ clock.map TimeSpend.duration ∧
      ∀ d ∈ clock.map TimeSpend.duration, d ≤ (s.run clock).Max) ∧
    (s.run clock).Average = (s.run clock).Total / (s.run clock).Count := by
  have hfresh : s.total_ = 0 ∧ s.count_ = 0 ∧ s.min_ = UINT64_MAX ∧ s.max_ = 0 := by
    rcases hs with ⟨name, rfl⟩ | ⟨ts, rfl⟩
    · exact ⟨rfl, rfl, rfl, rfl⟩
    · exact ⟨rfl, rfl, rfl, rfl⟩
  obtain ⟨ht0, hc0, hmin0, hmax0⟩ := hfresh
  obtain ⟨r1, r2, r3, r4⟩ := TimeSpend.run_fields clock s
    (by rw [ht0]; omega) (by rw [hc0]; omega)
  rw [ht0, Nat.zero_add] at r1
  rw [hc0, Nat.zero_add] at r2
  rw [hmin0] at r3
  rw [hmax0] at r4
  have hne : (s.run clock).count_ ≠ 0 := by omega
  obtain ⟨p, hp⟩ : ∃ d, d ∈ clock.map TimeSpend.duration := by
    cases clock with
    | nil => simp at hn
    | cons a tl => exact ⟨TimeSpend.duration a, by simp⟩
  have hbound : ∀ d ∈ clock.map TimeSpend.duration, d ≤ UINT64_MAX := by
    intro d hd
    obtain ⟨q, _, rfl⟩ := List.mem_map.mp hd
    have := TimeSpend.duration_lt q
    unfold UINT64_MAX
    omega
  obtain ⟨m1, _, m3⟩ := foldl_min_spec (clock.map TimeSpend.duration) UINT64_MAX
  obtain ⟨x1, _, x3⟩ := foldl_max_spec (clock.map TimeSpend.duration) 0
  unfold TimeSpend.Count TimeSpend.Total TimeSpend.Min TimeSpend.Max TimeSpend.Average
  rw [if_neg hne, if_neg hne, r3, r4]
  refine ⟨r2, r1, ⟨?_, m3⟩, ⟨?_, x3⟩, rfl⟩
  · rcases m1 with h | h
    · have h1 := m3 p hp
      have h2 := hbound p hp
      have : p = List.foldl min UINT64_MAX (clock.map TimeSpend.duration) := by omega
      rw [← this]
      exact hp
    · exact h
  · rcases x1 with h | h
    · have h1 := x3 p hp
      have : p = List.foldl max 0 (clock.map TimeSpend.duration) := by omega
      rw [← this]
      exact hp
    · exact h

theorem TimeSpend.run_statistics_witness :
    ((∃ name : String, TimeSpend.new "t" = TimeSpend.new name) ∨
      (∃ ts : TimeSpend, TimeSpend.new "t" = ts.Reset)) ∧
    1 ≤ [((3 : Nat), (10 : Nat)), (20, 22), (30, 45)].length ∧
    [((3 : Nat), (10 : Nat)), (20, 22), (30, 45)].length < 2 ^ 64 ∧
    ([((3 : Nat), (10 : Nat)), (20, 22), (30, 45)].map TimeSpend.duration).sum < 2 ^ 64 ∧
    (((TimeSpend.new "t").run [(3, 10), (20, 22), (30, 45)]).Count
        = [((3 : Nat), (10 : Nat)), (20, 22), (30, 45)].length ∧
      ((TimeSpend.new "t").run [(3, 10), (20, 22), (30, 45)]).Total
        = ([((3 : Nat), (10 : Nat)), (20, 22), (30, 45)].map TimeSpend.duration).sum ∧
      (((TimeSpend.new "t").run [(3, 10), (20, 22), (30, 45)]).Min
          ∈ [((3 : Nat), (10 : Nat)), (20, 22), (30, 45)].map TimeSpend.duration ∧
        ∀ d ∈ [((3 : Nat), (10 : Nat)), (20, 22), (30, 45)].map TimeSpend.duration,
          ((TimeSpend.new "t").run [(3, 10), (20, 22), (30, 45)]).Min ≤ d) ∧
      (((TimeSpend.new "t").run [(3, 10), (20, 22), (30, 45)]).Max
          ∈ [((3 : Nat), (10 : Nat)), (20, 22), (30, 45)].map TimeSpend.duration ∧
        ∀ d ∈ [((3 : Nat), (10 : Nat)), (20, 22), (30, 45)].map TimeSpend.duration,
          d ≤ ((TimeSpend.new "t").run [(3, 10), (20, 22), (30, 45)]).Max) ∧
      ((TimeSpend.new "t").run [(3, 10), (20, 22), (30, 45)]).Average
        = ((TimeSpend.new "t").run [(3, 10), (20, 22), (30, 45)]).Total
          / ((TimeSpend.new "t").run [(3, 10), (20, 22), (30, 45)]).Count) :=
  ⟨Or.inl ⟨"t", rfl⟩, by decide, by decide, by decide,
    TimeSpend.run_statistics (TimeSpend.new "t") [(3, 10), (20, 22), (30, 45)]
      (Or.inl ⟨"t", rfl⟩) (by decide) (by decide) (by decide)⟩

/-! ## TimeSpend: a fresh timer -/

/-- C11: for every `TimeSpend` immediately after construction or after
`Reset()` (whatever its earlier state), `Get()`, `Total()`, `Count()`,
`Average()`, `Min()` and `Max()` all return 0; `count_` is 0, so `Average()`
takes the branch without a division, and `Min()` returns 0 although `min_`
holds the sentinel `UINT64_MAX`. -/
theorem TimeSpend.fresh_accessors_zero (ts : TimeSpend) (name : String) :
    (ts.Reset.Get = 0 ∧ ts.Reset.Total = 0 ∧ ts.Reset.Count = 0 ∧
      ts.Reset.Average = 0 ∧ ts.Reset.Min = 0 ∧ ts.Reset.Max = 0) ∧
    ((TimeSpend.new name).Get = 0 ∧ (TimeSpend.new name).Total = 0 ∧
      (TimeSpend.new name).Count = 0 ∧ (TimeSpend.new name).Average = 0 ∧
      (TimeSpend.new name).Min = 0 ∧ (TimeSpend.new name).Max = 0) ∧
    (ts.Reset.count_ = 0 ∧ ts.Reset.min_ = UINT64_MAX ∧ ts.Reset.Min ≠ UINT64_MAX) := by
  have hget : u64sub 0 0 = 0 := by decide
  refine ⟨⟨hget, rfl, rfl, rfl, rfl, rfl⟩, ⟨hget, rfl, rfl, rfl, rfl, rfl⟩, rfl, rfl, ?_⟩
  show (0 : Nat) ≠ UINT64_MAX
  decide

/-! ## Logging: severities and verbosity -/

/-- C12: the log severities are strictly ordered `INFO < WARN < ERROR < FATAL`
by their underlying integer values 0, 1, 2, 3, so `FATAL` is the maximum and
`INFO` the minimum of `LogSeverity`. -/
theorem LogSeverity.strictly_ordered :
    LogSeverity.INFO.toInt = 0 ∧ LogSeverity.WARN.toInt = 1 ∧
    LogSeverity.ERROR.toInt = 2 ∧ LogSeverity.FATAL.toInt = 3 ∧
    LogSeverity.INFO.toInt < LogSeverity.WARN.toInt ∧
    LogSeverity.WARN.toInt < LogSeverity.ERROR.toInt ∧
    LogSeverity.ERROR.toInt < LogSeverity.FATAL.toInt ∧
    ∀ s : LogSeverity,
      LogSeverity.INFO.toInt ≤ s.toInt ∧ s.toInt ≤ LogSeverity.FATAL.toInt := by
  refine ⟨rfl, rfl, rfl, rfl, by decide, by decide, by decide, ?_⟩
  intro s
  cases s <;> exact ⟨by decide, by decide⟩

/-- C13: for all integers `L` and `v`, after `INSPIRECV_VLOG_SET_LEVEL(L)`
the test `INSPIRECV_VLOG_IS_ON(v)` is true exactly when `v <= L`; verbose
logging that is on at level `v` is on at every level `v' <= v`; and
`INSPIRE_VLOG(v)` creates a record only when that test is true, of severity
`INFO`. -/
theorem INSPIRECV_VLOG_gate (st : VLogState) (L v : Int) (file : String) (line : Int)
    (msg : String) :
    (INSPIRECV_VLOG_IS_ON (INSPIRECV_VLOG_SET_LEVEL st L) v = true ↔ v ≤ L) ∧
    (∀ w : Int, INSPIRECV_VLOG_IS_ON st v = true → w ≤ v →
      INSPIRECV_VLOG_IS_ON st w = true) ∧
    (∀ r : ISFLogging, INSPIRE_VLOG st v file line msg = some r →
      r.severity_ = LogSeverity.INFO ∧ INSPIRECV_VLOG_IS_ON st v = true) ∧
    (INSPIRECV_VLOG_IS_ON st v = false → INSPIRE_VLOG st v file line msg = none) := by
  refine ⟨?_, ?_, ?_, ?_⟩
  · simp [INSPIRECV_VLOG_IS_ON, INSPIRECV_VLOG_SET_LEVEL, ISFLogging.VLogSetLevel,
      ISFLogging.VLogLevel]
  · intro w hv hw
    simp only [INSPIRECV_VLOG_IS_ON, decide_eq_true_eq] at hv ⊢
    exact le_trans hw hv
  · intro r hr
    unfold INSPIRE_VLOG LOG_IF at hr
    split_ifs at hr with hc
    · simp only [Option.some.injEq] at hr
      subst hr
      exact ⟨rfl, hc⟩
  · intro hoff
    simp [INSPIRE_VLOG, LOG_IF, hoff]

/-! ## Check macros -/

/-- On operands of one linearly ordered type such as `int`, where the
operators are the order's own, the comparison macros fire exactly when the
relation fails. -/
theorem INSPIRECV_CHECK_fires_linear {α : Type} [LinearOrder α] (a b : α)
    (text file : String) (line : Int) (msg : String) :
    ((INSPIRECV_CHECK_EQ (fun x y : α => decide (x = y)) a b text file line msg).isSome
      = true ↔ ¬ (a = b)) ∧
    ((INSPIRECV_CHECK_NE (fun x y : α => decide (x ≠ y)) a b text file line msg).isSome
      = true ↔ ¬ (a ≠ b)) ∧
    ((INSPIRECV_CHECK_LE (fun x y : α => decide (x ≤ y)) a b text file line msg).isSome
      = true ↔ ¬ (a ≤ b)) ∧
    ((INSPIRECV_CHECK_LT (fun x y : α => decide (x < y)) a b text file line msg).isSome
      = true ↔ ¬ (a < b)) ∧
    ((INSPIRECV_CHECK_GE (fun x y : α => decide (x ≥ y)) a b text file line msg).isSome
      = true ↔ ¬ (a ≥ b)) ∧
    ((INSPIRECV_CHECK_GT (fun x y : α => decide (x > y)) a b text file line msg).isSome
      = true ↔ ¬ (a > b)) := by
  have key : ∀ (d : Bool) (t : String),
      ((INSPIRECV_CHECK d t file line msg).isSome = true ↔ d = false) := by
    intro d t
    cases d <;> simp [INSPIRECV_CHECK, INSPIRECV_LOG_IF]
  refine ⟨?_, ?_, ?_, ?_, ?_, ?_⟩
  · unfold INSPIRECV_CHECK_EQ
    rw [key]
    simp
  · unfold INSPIRECV_CHECK_NE
    rw [key]
    simp
  · unfold INSPIRECV_CHECK_LE
    rw [key]
    simp
  · unfold INSPIRECV_CHECK_LT
    rw [key]
    simp
  · unfold INSPIRECV_CHECK_GE
    rw [key]
    simp
  · unfold INSPIRECV_CHECK_GT
    rw [key]
    simp

/-- On float operands that are not-a-number every comparison but `!=` is
false: `INSPIRECV_CHECK_EQ`, `_LE`, `_LT`, `_GE` and `_GT` all fire on
`(NaN, NaN)`, also the pairs `_LE`/`_GT` and `_LT`/`_GE` together, and
`INSPIRECV_CHECK_NE` does not. -/
theorem INSPIRECV_CHECK_fires_nan (text file : String) (line : Int) (msg : String) :
    (INSPIRECV_CHECK_EQ FloatValue.eq FloatValue.nan FloatValue.nan
      text file line msg).isSome = true ∧
    (INSPIRECV_CHECK_NE FloatValue.ne FloatValue.nan FloatValue.nan
      text file line msg).isSome = false ∧
    (INSPIRECV_CHECK_LE FloatValue.le FloatValue.nan FloatValue.nan
      text file line msg).isSome = true ∧
    (INSPIRECV_CHECK_LT FloatValue.lt FloatValue.nan FloatValue.nan
      text file line msg).isSome = true ∧
    (INSPIRECV_CHECK_GE FloatValue.ge FloatValue.nan FloatValue.nan
      text file line msg).isSome = true ∧
    (INSPIRECV_CHECK_GT FloatValue.gt FloatValue.nan FloatValue.nan
      text file line msg).isSome = true := by
  refine ⟨?_, ?_, ?_, ?_, ?_, ?_⟩ <;>
    simp [INSPIRECV_CHECK_EQ, INSPIRECV_CHECK_NE, INSPIRECV_CHECK_LE, INSPIRECV_CHECK_LT,
      INSPIRECV_CHECK_GE, INSPIRECV_CHECK_GT, INSPIRECV_CHECK, INSPIRECV_LOG_IF,
      FloatValue.eq, FloatValue.ne, FloatValue.le, FloatValue.lt, FloatValue.ge,
      FloatValue.gt]

/-- C15: for every status-valued expression `s`, `INSPIRECV_RETURN_IF_ERROR(s)`
evaluates `s` exactly once (the state afterwards is the state after one
evaluation, and a counter of evaluations goes up by one); if the status is
not ok it logs the status message at `ERROR` severity and makes the
enclosing function return that same status, and if the status is ok it logs
nothing and execution continues after the macro. -/
theorem INSPIRECV_RETURN_IF_ERROR_effect {σ Status : Type} (ok : Status → Bool)
    (message : Status → String) (expr : σ → Status × σ) (file : String) (line : Int)
    (st : σ) (n : Nat) :
    (INSPIRECV_RETURN_IF_ERROR ok message expr file line st).state = (expr st).2 ∧
    (INSPIRECV_RETURN_IF_ERROR ok message (countEvaluations expr) file line (st, n)).state
      = ((expr st).2, n + 1) ∧
    (ok (expr st).1 = false →
      (INSPIRECV_RETURN_IF_ERROR ok message expr file line st).log
          = [{ severity_ := LogSeverity.ERROR, filename_ := file, line_ := line,
               stream_ := message (expr st).1 }] ∧
      (INSPIRECV_RETURN_IF_ERROR ok message expr file line st).flow
          = ControlFlow.returned (expr st).1) ∧
    (ok (expr st).1 = true →
      (INSPIRECV_RETURN_IF_ERROR ok message expr file line st).log = [] ∧
      (INSPIRECV_RETURN_IF_ERROR ok message expr file line st).flow
          = ControlFlow.continues) := by
  refine ⟨?_, ?_, ?_, ?_⟩
  · unfold INSPIRECV_RETURN_IF_ERROR
    simp only
    split_ifs <;> rfl
  · unfold INSPIRECV_RETURN_IF_ERROR countEvaluations
    simp only
    split_ifs <;> rfl
  · intro h
    simp [INSPIRECV_RETURN_IF_ERROR, INSPIRECV_LOG, h]
  · intro h
    simp [INSPIRECV_RETURN_IF_ERROR, h]

/-! ## add_face_to_database: return value of AddFacesFromDirectory -/

/-- The counter of the loop is the number of images whose iteration reaches
`success_count++`, on top of its start value. -/
theorem successCount_foldl (w : World) (l : List String) :
    ∀ k : Int,
      l.foldl (fun n p => if imageInserted (w.image p) then n + 1 else n) k
        = k + (l.countP (fun p => imageInserted (w.image p)) : Nat) := by
  induction l with
  | nil => intro k; simp
  | cons a tl ih =>
    intro k
    rw [List.foldl_cons, ih, List.countP_cons]
    by_cases h : imageInserted (w.image a) = true
    · simp only [h, if_true]
      push_cast
      ring
    · simp only [h, Bool.false_eq_true, if_false]
      push_cast
      ring

theorem successCount_pos_iff (w : World) (l : List String) :
    0 < successCount w l ↔ ∃ p ∈ l, imageInserted (w.image p) = true := by
  unfold successCount
  rw [successCount_foldl, zero_add]
  rw [Int.natCast_pos, List.countP_pos_iff]

theorem successCount_nonneg (w : World) (l : List String) : 0 ≤ successCount w l := by
  unfold successCount
  rw [successCount_foldl, zero_add]
  exact Int.natCast_nonneg _

/-- `AddFacesFromDirectory` returns 0 or -1. -/
theorem AddFacesFromDirectory_zero_or_neg_one (w : World) (image_dir model_path : String) :
    AddFacesFromDirectory w image_dir model_path = 0 ∨
      AddFacesFromDirectory w image_dir model_path = -1 := by
  unfold AddFacesFromDirectory
  split_ifs
  · right; rfl
  · right; rfl
  · right; rfl
  · split
    · right; rfl
    · simp only
      split_ifs
      · right; rfl
      · left; rfl
      · right; rfl

/-- When the directory cannot be opened, `AddFacesFromDirectory` returns -1. -/
theorem AddFacesFromDirectory_opendir_none (w : World) (image_dir model_path : String)
    (h : w.opendir image_dir = none) :
    AddFacesFromDirectory w image_dir model_path = -1 := by
  unfold AddFacesFromDirectory
  split_ifs
  · rfl
  · rfl
  · rfl
  · rw [h]

/-- The return value of `AddFacesFromDirectory` in terms of the loop counter
and of the images that reach `success_count++`. -/
theorem AddFacesFromDirectory_by_counter (w : World) (image_dir model_path : String) :
    (AddFacesFromDirectory w image_dir model_path = 0 ↔
      (w.load model_path = 0 ∧ w.session_created = true ∧ w.hub_result = 0 ∧
        ∃ entries, w.opendir image_dir = some entries ∧
          0 < successCount w (imageFiles image_dir entries) ∧
          ∃ p ∈ imageFiles image_dir entries, imageInserted (w.image p) = true)) ∧
    (AddFacesFromDirectory w image_dir model_path ≠ 0 →
      AddFacesFromDirectory w image_dir model_path = -1) ∧
    (w.load model_path ≠ 0 → AddFacesFromDirectory w image_dir model_path = -1) ∧
    (w.session_created = false → AddFacesFromDirectory w image_dir model_path = -1) ∧
    (w.hub_result ≠ 0 → AddFacesFromDirectory w image_dir model_path = -1) ∧
    (w.opendir image_dir = none → AddFacesFromDirectory w image_dir model_path = -1) ∧
    (∀ entries, w.opendir image_dir = some entries →
      (imageFiles image_dir entries = [] ∨
        ∀ p ∈ imageFiles image_dir entries, imageInserted (w.image p) = false) →
      AddFacesFromDirectory w image_dir model_path = -1) := by
  have hdich := AddFacesFromDirectory_zero_or_neg_one w image_dir model_path
  have hiff : AddFacesFromDirectory w image_dir model_path = 0 ↔
      (w.load model_path = 0 ∧ w.session_created = true ∧ w.hub_result = 0 ∧
        ∃ entries, w.opendir image_dir = some entries ∧
          0 < successCount w (imageFiles image_dir entries) ∧
          ∃ p ∈ imageFiles image_dir entries, imageInserted (w.image p) = true) := by
    unfold AddFacesFromDirectory
    by_cases h1 : w.load model_path = 0
    · by_cases h2 : w.session_created = true
      · by_cases h3 : w.hub_result = 0
        · cases h4 : w.opendir image_dir with
          | none => simp [h1, h2, h3]
          | some entries =>
            by_cases h5 : 0 < successCount w (imageFiles image_dir entries)
            · have h6 := (successCount_pos_iff w _).mp h5
              have h7 : (imageFiles image_dir entries).isEmpty = false := by
                obtain ⟨p, hp, -⟩ := h6
                cases hl : imageFiles image_dir entries with
                | nil => rw [hl] at hp; simp at hp
                | cons a tl => rfl
              simp only [h1, h2, h3, h7, h5]
              simp
              exact ⟨h5, h6⟩
            · have h6 : ¬ ∃ p ∈ imageFiles image_dir entries,
                  imageInserted (w.image p) = true :=
                fun h => h5 ((successCount_pos_iff w _).mpr h)
              simp only [h1, h2, h3, h5]
              simp
              intro h
              exact absurd h h5
        · simp [h1, h2, h3]
      · simp [h1, h2]
    · simp [h1]
  refine ⟨hiff, ?_, ?_, ?_, ?_, ?_, ?_⟩
  · intro hne
    exact hdich.resolve_left hne
  · intro h
    exact hdich.resolve_left (fun h0 => h (hiff.mp h0).1)
  · intro h
    refine hdich.resolve_left (fun h0 => ?_)
    have := (hiff.mp h0).2.1
    rw [h] at this
    exact Bool.false_ne_true this
  · intro h
    exact hdich.resolve_left (fun h0 => h (hiff.mp h0).2.2.1)
  · intro h
    exact AddFacesFromDirectory_opendir_none w image_dir model_path h
  · intro entries hopen hnone
    refine hdich.resolve_left (fun h0 => ?_)
    obtain ⟨-, -, -, e, he, -, p, hp, hins⟩ := hiff.mp h0
    rw [hopen] at he
    cases he
    rcases hnone with hnil | hall
    · rw [hnil] at hp
      simp at hp
    · rw [hall p hp] at hins
      exact Bool.false_ne_true hins

/-- An iteration of the loop reaches `success_count++` exactly when the image
was read, detection returned 0 with at least one face, extraction returned 0
and `FaceFeatureInsert` returned 0. -/
theorem imageInserted_iff (o : ImageOutcome) :
    imageInserted o = true ↔
      (o.image_empty = false ∧ o.detect_result = 0 ∧ o.faces_size ≠ 0 ∧
        o.extract_result = 0 ∧ o.insert_result = 0) := by
  unfold imageInserted
  cases h1 : o.image_empty
  · by_cases h2 : o.detect_result = 0
    · by_cases h3 : o.faces_size = 0
      · simp [h2, h3]
      · by_cases h4 : o.extract_result = 0
        · simp [h2, h3, h4]
        · simp [h2, h3, h4]
    · simp [h2]
  · simp

/-- The paths in `image_files` are the entries of the directory that pass the
extension test, each behind `image_dir + "/"`. -/
theorem mem_imageFiles (image_dir : String) (entries : List String) (p : String) :
    p ∈ imageFiles image_dir entries ↔
      ∃ filename ∈ entries, hasImageExtension filename = true ∧
        image_dir ++ "/" ++ filename = p := by
  unfold imageFiles
  simp only [List.mem_map, List.mem_filter]
  constructor
  · rintro ⟨f, ⟨hf, hext⟩, rfl⟩
    exact ⟨f, hf, hext, rfl⟩
  · rintro ⟨f, hf, hext, rfl⟩
    exact ⟨f, ⟨hf, hext⟩, rfl⟩

/-- The loop counter is the number of directory entries that pass the
extension test and whose image is inserted. -/
theorem successCount_imageFiles (w : World) (image_dir : String) (entries : List String) :
    successCount w (imageFiles image_dir entries) =
      ((entries.countP (fun filename =>
        hasImageExtension filename &&
          (!(w.image (image_dir ++ "/" ++ filename)).image_empty &&
            decide ((w.image (image_dir ++ "/" ++ filename)).detect_result = 0) &&
            decide ((w.image (image_dir ++ "/" ++ filename)).faces_size ≠ 0) &&
            decide ((w.image (image_dir ++ "/" ++ filename)).extract_result = 0) &&
            decide ((w.image (image_dir ++ "/" ++ filename)).insert_result = 0))) : Nat) :
        Int) := by
  have hbool : ∀ o : ImageOutcome, imageInserted o =
      (!o.image_empty && decide (o.detect_result = 0) && decide (o.faces_size ≠ 0) &&
        decide (o.extract_result = 0) && decide (o.insert_result = 0)) := by
    intro o
    rw [Bool.eq_iff_iff, imageInserted_iff]
    simp [and_assoc]
  unfold successCount
  rw [successCount_foldl, zero_add]
  congr 1
  unfold imageFiles
  rw [List.countP_map, List.countP_filter]
  apply List.countP_congr
  intro f _
  simp only [Function.comp, hbool, Bool.and_eq_true]
  constructor
  · rintro ⟨h1, h2⟩
    exact ⟨h2, h1⟩
  · rintro ⟨h1, h2⟩
    exact ⟨h2, h1⟩

/-- C16: `AddFacesFromDirectory` returns 0 exactly when at least one face
feature was inserted into the database (`success_count > 0`): the model
loaded, the session was created, the hub was enabled, the directory was
opened, and for some entry with an image extension the image was read,
detection and extraction returned 0 on at least one face and
`FaceFeatureInsert` returned 0. It returns -1 in every other case: model load
failure, session creation failure, hub enable failure, unopenable directory,
no image files, or no image yielding a successful insert. The counter
`success_count` is the number of entries that yield a successful insert. -/
theorem AddFacesFromDirectory_return (w : World) (image_dir model_path : String) :
    (AddFacesFromDirectory w image_dir model_path = 0 ↔
      (w.load model_path = 0 ∧ w.session_created = true ∧ w.hub_result = 0 ∧
        ∃ entries, w.opendir image_dir = some entries ∧
          ∃ filename ∈ entries, hasImageExtension filename = true ∧
            (w.image (image_dir ++ "/" ++ filename)).image_empty = false ∧
            (w.image (image_dir ++ "/" ++ filename)).detect_result = 0 ∧
            (w.image (image_dir ++ "/" ++ filename)).faces_size ≠ 0 ∧
            (w.image (image_dir ++ "/" ++ filename)).extract_result = 0 ∧
            (w.image (image_dir ++ "/" ++ filename)).insert_result = 0)) ∧
    (AddFacesFromDirectory w image_dir model_path ≠ 0 →
      AddFacesFromDirectory w image_dir model_path = -1) ∧
    (w.load model_path ≠ 0 → AddFacesFromDirectory w image_dir model_path = -1) ∧
    (w.session_created = false → AddFacesFromDirectory w image_dir model_path = -1) ∧
    (w.hub_result ≠ 0 → AddFacesFromDirectory w image_dir model_path = -1) ∧
    (w.opendir image_dir = none → AddFacesFromDirectory w image_dir model_path = -1) ∧
    (∀ entries, w.opendir image_dir = some entries →
      (∀ filename ∈ entries, hasImageExtension filename = false) →
      AddFacesFromDirectory w image_dir model_path = -1) ∧
    (∀ entries, w.opendir image_dir = some entries →
      (∀ filename ∈ entries, hasImageExtension filename = true →
        (w.image (image_dir ++ "/" ++ filename)).image_empty = true ∨
        (w.image (image_dir ++ "/" ++ filename)).detect_result ≠ 0 ∨
        (w.image (image_dir ++ "/" ++ filename)).faces_size = 0 ∨
        (w.image (image_dir ++ "/" ++ filename)).extract_result ≠ 0 ∨
        (w.image (image_dir ++ "/" ++ filename)).insert_result ≠ 0) →
      AddFacesFromDirectory w image_dir model_path = -1) ∧
    (∀ entries, w.opendir image_dir = some entries →
      successCount w (imageFiles image_dir entries) =
        ((entries.countP (fun filename =>
          hasImageExtension filename &&
            (!(w.image (image_dir ++ "/" ++ filename)).image_empty &&
              decide ((w.image (image_dir ++ "/" ++ filename)).detect_result = 0) &&
              decide ((w.image (image_dir ++ "/" ++ filename)).faces_size ≠ 0) &&
              decide ((w.image (image_dir ++ "/" ++ filename)).extract_result = 0) &&
              decide ((w.image (image_dir ++ "/" ++ filename)).insert_result = 0))) : Nat) :
          Int)) := by
  obtain ⟨hiff0, hne, hload, hsess, hhub, hopen, -⟩ :=
    AddFacesFromDirectory_by_counter w image_dir model_path
  have hiff : AddFacesFromDirectory w image_dir model_path = 0 ↔
      (w.load model_path = 0 ∧ w.session_created = true ∧ w.hub_result = 0 ∧
        ∃ entries, w.opendir image_dir = some entries ∧
          ∃ filename ∈ entries, hasImageExtension filename = true ∧
            (w.image (image_dir ++ "/" ++ filename)).image_empty = false ∧
            (w.image (image_dir ++ "/" ++ filename)).detect_result = 0 ∧
            (w.image (image_dir ++ "/" ++ filename)).faces_size ≠ 0 ∧
            (w.image (image_dir ++ "/" ++ filename)).extract_result = 0 ∧
            (w.image (image_dir ++ "/" ++ filename)).insert_result = 0) := by
    rw [hiff0]
    constructor
    · rintro ⟨h1, h2, h3, entries, he, -, p, hp, hins⟩
      obtain ⟨f, hf, hext, rfl⟩ := (mem_imageFiles image_dir entries p).mp hp
      exact ⟨h1, h2, h3, entries, he, f, hf, hext, (imageInserted_iff _).mp hins⟩
    · rintro ⟨h1, h2, h3, entries, he, f, hf, hext, hprim⟩
      have hp : image_dir ++ "/" ++ f ∈ imageFiles image_dir entries :=
        (mem_imageFiles image_dir entries _).mpr ⟨f, hf, hext, rfl⟩
      have hins := (imageInserted_iff _).mpr hprim
      exact ⟨h1, h2, h3, entries, he,
        (successCount_pos_iff w _).mpr ⟨_, hp, hins⟩, _, hp, hins⟩
  refine ⟨hiff, hne, hload, hsess, hhub, hopen, ?_, ?_, ?_⟩
  · intro entries he hnone
    refine hne (fun h0 => ?_)
    obtain ⟨-, -, -, e, he2, f, hf, hext, -⟩ := hiff.mp h0
    rw [he] at he2
    cases he2
    rw [hnone f hf] at hext
    exact Bool.noConfusion hext
  · intro entries he hfail
    refine hne (fun h0 => ?_)
    obtain ⟨-, -, -, e, he2, f, hf, hext, g1, g2, g3, g4, g5⟩ := hiff.mp h0
    rw [he] at he2
    cases he2
    rcases hfail f hf hext with k | k | k | k | k
    · rw [g1] at k
      exact Bool.noConfusion k
    · exact k g2
    · exact g3 k
    · exact k g4
    · exact k g5
  · intro entries _
    exact successCount_imageFiles w image_dir entries

/-- The sample world is one in which `AddFacesFromDirectory` succeeds on the
directory `faces`, and fails on a directory that cannot be opened. -/
theorem AddFacesFromDirectory_sampleWorld :
    AddFacesFromDirectory sampleWorld "faces" "model" = 0 ∧
    AddFacesFromDirectory sampleWorld "nowhere" "model" = -1 := by
  decide

/-! ## camera_face_recognizer: ParseArguments -/

theorem isspace_of_isDigit (c : Char) (h : c.isDigit = true) : isspace c = false := by
  unfold isspace
  simp only [Bool.or_eq_false_iff, beq_eq_false_iff_ne, ne_eq]
  refine ⟨⟨⟨⟨⟨?_, ?_⟩, ?_⟩, ?_⟩, ?_⟩, ?_⟩ <;>
    · intro hc
      rw [hc] at h
      revert h
      decide

theorem not_sign_of_isDigit (c : Char) (h : c.isDigit = true) : c ≠ '-' ∧ c ≠ '+' := by
  constructor <;>
    · intro hc
      rw [hc] at h
      revert h
      decide

/-- On an optional minus sign followed by decimal digits only, `std::stoi`
returns the value of the digits, negated after a minus sign, provided the
value fits an `int`. -/
theorem stoi_decimal (str : String) (neg : Bool) (ds : List Char)
    (hstr : str.toList = (if neg = true then ['-'] else []) ++ ds)
    (hne : ds ≠ []) (hdig : ∀ c ∈ ds, c.isDigit = true)
    (hlo : INT_MIN ≤ (if neg = true then -(decimalValue ds : Int) else (decimalValue ds : Int)))
    (hhi : (if neg = true then -(decimalValue ds : Int) else (decimalValue ds : Int)) ≤ INT_MAX) :
    stoi str = Except.ok
      (if neg = true then -(decimalValue ds : Int) else (decimalValue ds : Int)) := by
  have htake : ds.takeWhile Char.isDigit = ds := List.takeWhile_eq_self_iff.mpr hdig
  have hemp : ds.isEmpty = false := by
    cases ds with
    | nil => exact absurd rfl hne
    | cons a tl => rfl
  unfold stoi
  rw [hstr]
  cases neg with
  | true =>
    have hsp : isspace '-' = false := by decide
    simp only [if_true, List.singleton_append, List.dropWhile_cons, hsp, Bool.false_eq_true,
      if_false, List.head?_cons, true_or, List.tail_cons, htake, hemp, decide_True]
    simp only [if_true] at hlo hhi
    rw [if_neg (by push_neg; exact ⟨hlo, hhi⟩)]
  | false =>
    cases ds with
    | nil => exact absurd rfl hne
    | cons d tl =>
      have hd : d.isDigit = true := hdig d (List.mem_cons_self d tl)
      have hsp := isspace_of_isDigit d hd
      obtain ⟨hm, hp⟩ := not_sign_of_isDigit d hd
      simp only [Bool.false_eq_true, if_false, List.nil_append, List.dropWhile_cons, hsp,
        List.head?_cons, Option.some.injEq, hm, hp, or_self, htake, hemp, decide_False]
      simp only [Bool.false_eq_true, if_false] at hlo hhi
      rw [if_neg (by push_neg; exact ⟨hlo, hhi⟩)]

/-- C17, as stated, fails: `2147483648` is a decimal integer, yet with it as
`argv[2]` the call `std::stoi` throws `std::out_of_range` and
`ParseArguments` returns nothing at all. -/
theorem ParseArguments_index_out_of_range :
    (∀ c ∈ "2147483648".toList, c.isDigit = true) ∧
    ParseArguments ["camera_face_recognizer", "model", "2147483648"] "" 0
      = Except.error StoiError.out_of_range := by
  constructor
  · decide
  · rfl

/-- C17, amended: `ParseArguments` returns false, leaving `model_path` and
`camera_index` unmodified, exactly when `argc < 2` or `argc > 3`; with
`argc == 2` it returns true with `model_path = argv[1]` and
`camera_index = 0`; with `argc == 3` and `argv[2]` a decimal integer (an
optional minus sign, then digits) whose value fits an `int`, it returns
true with `model_path = argv[1]` and `camera_index` that value. -/
theorem ParseArguments_spec (argv : List String) (prog model idx : String)
    (model_path : String) (camera_index : Int) (neg : Bool) (ds : List Char)
    (hidx : idx.toList = (if neg = true then ['-'] else []) ++ ds)
    (hne : ds ≠ []) (hdig : ∀ c ∈ ds, c.isDigit = true)
    (hlo : INT_MIN ≤ (if neg = true then -(decimalValue ds : Int) else (decimalValue ds : Int)))
    (hhi : (if neg = true then -(decimalValue ds : Int) else (decimalValue ds : Int)) ≤ INT_MAX) :
    ((∃ r, ParseArguments argv model_path camera_index = Except.ok r ∧ r.ret = false) ↔
      (argv.length < 2 ∨ argv.length > 3)) ∧
    ((argv.length < 2 ∨ argv.length > 3) →
      ParseArguments argv model_path camera_index
        = Except.ok { ret := false, model_path := model_path, camera_index := camera_index }) ∧
    ParseArguments [prog, model] model_path camera_index
      = Except.ok { ret := true, model_path := model, camera_index := 0 } ∧
    ParseArguments [prog, model, idx] model_path camera_index
      = Except.ok { ret := true, model_path := model
                    camera_index :=
                      if neg = true then -(decimalValue ds : Int) else (decimalValue ds : Int) } := by
  have hout : (argv.length < 2 ∨ argv.length > 3) →
      ParseArguments argv model_path camera_index
        = Except.ok { ret := false, model_path := model_path, camera_index := camera_index } := by
    intro h
    unfold ParseArguments
    simp only [h, if_true]
  refine ⟨⟨?_, ?_⟩, hout, ?_, ?_⟩
  · rintro ⟨r, hr, hret⟩
    by_contra hin
    unfold ParseArguments at hr
    simp only [hin, if_false] at hr
    split_ifs at hr with h3
    · split at hr
      · simp only [Except.ok.injEq] at hr
        rw [← hr] at hret
        exact Bool.noConfusion hret
      · exact Except.noConfusion hr
    · simp only [Except.ok.injEq] at hr
      rw [← hr] at hret
      exact Bool.noConfusion hret
  · intro h
    exact ⟨_, hout h, rfl⟩
  · rfl
  · have hst := stoi_decimal idx neg ds hidx hne hdig hlo hhi
    have hlen : ([prog, model, idx] : List String).length = 3 := rfl
    unfold ParseArguments
    simp only [hlen]
    rw [if_neg (by omega), if_pos trivial]
    simp only [List.getD_cons_succ, List.getD_cons_zero, hst]

theorem ParseArguments_spec_witness :
    "-12".toList = (if true = true then ['-'] else []) ++ ['1', '2'] ∧
    ['1', '2'] ≠ [] ∧ (∀ c ∈ ['1', '2'], c.isDigit = true) ∧
    INT_MIN ≤ (if true = true then -(decimalValue ['1', '2'] : Int)
      else (decimalValue ['1', '2'] : Int)) ∧
    (if true = true then -(decimalValue ['1', '2'] : Int)
      else (decimalValue ['1', '2'] : Int)) ≤ INT_MAX ∧
    (((∃ r, ParseArguments ["cam"] "unset" 7 = Except.ok r ∧ r.ret = false) ↔
      (["cam"].length < 2 ∨ ["cam"].length > 3)) ∧
    ((["cam"].length < 2 ∨ ["cam"].length > 3) →
      ParseArguments ["cam"] "unset" 7
        = Except.ok { ret := false, model_path := "unset", camera_index := 7 }) ∧
    ParseArguments ["cam", "model"] "unset" 7
      = Except.ok { ret := true, model_path := "model", camera_index := 0 } ∧
    ParseArguments ["cam", "model", "-12"] "unset" 7
      = Except.ok { ret := true, model_path := "model"
                    camera_index :=
                      if true = true then -(decimalValue ['1', '2'] : Int)
                      else (decimalValue ['1', '2'] : Int) }) :=
  ⟨by decide, by decide, by decide, by decide, by decide,
    ParseArguments_spec ["cam"] "cam" "model" "-12" "unset" 7 true ['1', '2']
      (by decide) (by decide) (by decide) (by decide) (by decide)⟩

/-! ## add_face_to_database: main -/

/-- C18 fails on the code: with the model path alone (`argc == 2`) `main`
takes the branch `argc < 3`, prints the usage text and returns -1, although
that usage text marks the image directory as optional. -/
theorem add_face_to_database_main_model_only (w : World) (prog model : String) :
    add_face_to_database_main w [prog, model] = (MainBranch.usage, -1) := by
  rfl

/-- A mode whose file type is `S_IFDIR` passes the test
`st_mode & S_IFDIR` of `main`. -/
theorem S_IFDIR_test_of_directory (m : Nat) (h : m &&& S_IFMT = S_IFDIR) :
    m &&& S_IFDIR ≠ 0 := by
  have h1 : m &&& S_IFDIR = (m &&& S_IFMT) &&& S_IFDIR := by
    rw [Nat.land_assoc]
    rfl
  rw [h1, h]
  decide

/-- C19: for every invocation of `main` with `argc >= 3`, `main` returns the
result of `AddFacesFromDirectory(argv[2], argv[1])` when `argv[2]` names an
existing directory and returns -1 otherwise (a path that is no directory
cannot be opened by `opendir`); the final parameter-error branch is taken
for no `argv` at all. -/
theorem add_face_to_database_main_argc_ge_3 (w : World) (prog model dir : String)
    (rest argv : List String)
    (hfs : ∀ path entries, w.opendir path = some entries →
      ∃ m, w.stat path = some m ∧ m &&& S_IFMT = S_IFDIR) :
    ((∃ m, w.stat dir = some m ∧ m &&& S_IFMT = S_IFDIR) →
      (add_face_to_database_main w (prog :: model :: dir :: rest)).2
        = AddFacesFromDirectory w dir model) ∧
    (¬ (∃ m, w.stat dir = some m ∧ m &&& S_IFMT = S_IFDIR) →
      (add_face_to_database_main w (prog :: model :: dir :: rest)).2 = -1) ∧
    (add_face_to_database_main w argv).1 ≠ MainBranch.parameterError := by
  have hlen : ¬ ((prog :: model :: dir :: rest).length < 3) := by
    simp only [List.length_cons]
    omega
  have hlen2 : (prog :: model :: dir :: rest).length ≥ 2 := by
    simp only [List.length_cons]
    omega
  refine ⟨?_, ?_, ?_⟩
  · rintro ⟨m, hm, hdir⟩
    unfold add_face_to_database_main
    simp only [hlen, hlen2, if_false, if_true, List.getD_cons_succ, List.getD_cons_zero, hm]
    rw [if_pos (S_IFDIR_test_of_directory m hdir)]
  · intro hnot
    have hopen : w.opendir dir = none := by
      cases ho : w.opendir dir with
      | none => rfl
      | some entries => exact absurd (hfs dir entries ho) hnot
    unfold add_face_to_database_main
    simp only [hlen, hlen2, if_false, if_true, List.getD_cons_succ, List.getD_cons_zero]
    cases hs : w.stat dir with
    | none => rfl
    | some m =>
      simp only
      split_ifs
      · exact AddFacesFromDirectory_opendir_none w dir model hopen
      · rfl
  · unfold add_face_to_database_main
    simp only
    split_ifs with h1 h2
    · simp
    · split
      · split_ifs <;> simp
      · simp
    · omega

theorem add_face_to_database_main_argc_ge_3_witness :
    (∀ path entries, sampleWorld.opendir path = some entries →
      ∃ m, sampleWorld.stat path = some m ∧ m &&& S_IFMT = S_IFDIR) ∧
    (((∃ m, sampleWorld.stat "faces" = some m ∧ m &&& S_IFMT = S_IFDIR) →
      (add_face_to_database_main sampleWorld ("prog" :: "model" :: "faces" :: [])).2
        = AddFacesFromDirectory sampleWorld "faces" "model") ∧
    (¬ (∃ m, sampleWorld.stat "faces" = some m ∧ m &&& S_IFMT = S_IFDIR) →
      (add_face_to_database_main sampleWorld ("prog" :: "model" :: "faces" :: [])).2 = -1) ∧
    (add_face_to_database_main sampleWorld ["prog", "model"]).1
      ≠ MainBranch.parameterError) := by
  have hfs : ∀ path entries, sampleWorld.opendir path = some entries →
      ∃ m, sampleWorld.stat path = some m ∧ m &&& S_IFMT = S_IFDIR := by
    intro path entries h
    by_cases hp : path = "faces"
    · refine ⟨16877, ?_, by decide⟩
      simp [sampleWorld, hp]
    · simp [sampleWorld, hp] at h
  exact ⟨hfs, add_face_to_database_main_argc_ge_3 sampleWorld "prog" "model" "faces" []
    ["prog", "model"] hfs⟩

theorem list_beq_eq_decide (a b : List Char) : (a == b) = decide (a = b) := by
  by_cases h : a = b <;> simp [h]

/-- The extension test on a name with a `.`: the text after the last `.` is
lower-cased and compared with the four extensions. -/
theorem hasImageExtension_of_dot (filename : String) (pre ext : List Char)
    (hname : filename.toList = pre ++ '.' :: ext) (hext : '.' ∉ ext)
    (hsize : filename.toList.length < 2 ^ 64) :
    hasImageExtension filename =
      decide (ext.map tolower ∈
        ["jpg".toList, "jpeg".toList, "png".toList, "bmp".toList]) := by
  have hmem : '.' ∈ pre ++ '.' :: ext := by simp
  have hidx : (pre ++ '.' :: ext).reverse.indexOf '.' = ext.length := by
    rw [List.reverse_append, List.reverse_cons, List.append_assoc,
      List.indexOf_append_of_not_mem (by simpa using hext)]
    simp
  have hpos : find_last_of (pre ++ '.' :: ext) '.' = pre.length := by
    unfold find_last_of
    rw [if_pos hmem, hidx]
    simp only [List.length_append, List.length_cons]
    omega
  have hlt : pre.length + 1 < 2 ^ 64 := by
    rw [hname] at hsize
    simp only [List.length_append, List.length_cons] at hsize
    omega
  have hdrop : List.drop (pre.length + 1) (pre ++ '.' :: ext) = ext := by
    rw [List.drop_append_eq_append_drop]
    simp
  unfold hasImageExtension substr
  simp only [hname, hpos, Nat.mod_eq_of_lt hlt, hdrop]
  simp only [list_beq_eq_decide, List.mem_cons, List.not_mem_nil, or_false, Bool.decide_or,
    Bool.or_assoc]

/-- The extension test on a name without a `.`: `find_last_of` gives `npos`,
`npos + 1` wraps to 0, and the whole name is taken for the extension. -/
theorem hasImageExtension_of_no_dot (filename : String) (hno : '.' ∉ filename.toList) :
    hasImageExtension filename =
      decide (filename.toList.map tolower ∈
        ["jpg".toList, "jpeg".toList, "png".toList, "bmp".toList]) := by
  have hpos : find_last_of filename.toList '.' = npos := by
    unfold find_last_of
    rw [if_neg hno]
  have hwrap : (npos + 1) % 2 ^ 64 = 0 := by decide
  unfold hasImageExtension substr
  simp only [hpos, hwrap, List.drop_zero]
  simp only [list_beq_eq_decide, List.mem_cons, List.not_mem_nil, or_false, Bool.decide_or,
    Bool.or_assoc]

/-- The position passed to `substr` never exceeds the size of the name. -/
theorem find_last_of_succ_le (s : List Char) (c : Char) :
    (find_last_of s c + 1) % 2 ^ 64 ≤ s.length := by
  unfold find_last_of
  split_ifs with h
  · have hpos : 0 < s.length := List.length_pos_of_mem h
    calc (s.length - 1 - s.reverse.indexOf c + 1) % 2 ^ 64
        ≤ s.length - 1 - s.reverse.indexOf c + 1 := Nat.mod_le _ _
      _ ≤ s.length := by omega
  · have hwrap : (npos + 1) % 2 ^ 64 = 0 := by decide
    rw [hwrap]
    exact Nat.zero_le _

/-- C20 fails on the code: the directory entry named `jpg` contains no `.`
and is selected as an image file all the same. -/
theorem hasImageExtension_jpg_without_dot :
    '.' ∉ "jpg".toList ∧ hasImageExtension "jpg" = true := by
  constructor
  · decide
  · rw [hasImageExtension_of_no_dot "jpg" (by decide)]
    decide

/-! ## camera_face_recognizer: frontal test -/

theorem FloatValue.abs_lt_finite_iff (a : FloatValue) (t : ℚ) :
    a.abs.lt (FloatValue.finite t) = true ↔ ∃ q : ℚ, a = FloatValue.finite q ∧ |q| < t := by
  cases a with
  | finite q => simp [FloatValue.abs, FloatValue.lt]
  | posInf => simp [FloatValue.abs, FloatValue.lt]
  | negInf => simp [FloatValue.abs, FloatValue.lt]
  | nan => simp [FloatValue.abs, FloatValue.lt]

theorem FloatValue.abs_neg (a : FloatValue) : a.neg.abs = a.abs := by
  cases a with
  | finite q => simp [FloatValue.abs, FloatValue.neg]
  | posInf => rfl
  | negInf => rfl
  | nan => rfl

theorem FloatValue.abs_lt_self_false (t : ℚ) (ht : 0 ≤ t) :
    (FloatValue.finite t).abs.lt (FloatValue.finite t) = false ∧
    (FloatValue.finite (-t)).abs.lt (FloatValue.finite t) = false := by
  simp [FloatValue.abs, FloatValue.lt, abs_of_nonneg ht]

/-- C21: `IsFrontalFace` returns true exactly when `|yaw| < 15`,
`|pitch| < 15` and `|roll| < 15` (strict), so an angle of exactly 15 or -15
is not frontal and the result is unchanged by negating any angle; the
frontal test inlined in `AddFacesFromDirectory` computes the same predicate
for all angle triples. -/
theorem IsFrontalFace_iff (face : FaceTrackWrap) (a b : FloatValue) :
    (IsFrontalFace face = true ↔
      ∃ y p r : ℚ, face.face3DAngle.yaw = FloatValue.finite y ∧
        face.face3DAngle.pitch = FloatValue.finite p ∧
        face.face3DAngle.roll = FloatValue.finite r ∧
        |y| < 15 ∧ |p| < 15 ∧ |r| < 15) ∧
    (IsFrontalFace { face with face3DAngle := ⟨FloatValue.finite 15, a, b⟩ } = false ∧
      IsFrontalFace { face with face3DAngle := ⟨FloatValue.finite (-15), a, b⟩ } = false ∧
      IsFrontalFace { face with face3DAngle := ⟨a, FloatValue.finite 15, b⟩ } = false ∧
      IsFrontalFace { face with face3DAngle := ⟨a, FloatValue.finite (-15), b⟩ } = false ∧
      IsFrontalFace { face with face3DAngle := ⟨a, b, FloatValue.finite 15⟩ } = false ∧
      IsFrontalFace { face with face3DAngle := ⟨a, b, FloatValue.finite (-15)⟩ } = false) ∧
    (IsFrontalFace { face with face3DAngle :=
        { face.face3DAngle with yaw := face.face3DAngle.yaw.neg } } = IsFrontalFace face ∧
      IsFrontalFace { face with face3DAngle :=
        { face.face3DAngle with pitch := face.face3DAngle.pitch.neg } } = IsFrontalFace face ∧
      IsFrontalFace { face with face3DAngle :=
        { face.face3DAngle with roll := face.face3DAngle.roll.neg } } = IsFrontalFace face) ∧
    AddFacesFromDirectory_is_frontal face = IsFrontalFace face := by
  obtain ⟨h15, hm15⟩ := FloatValue.abs_lt_self_false 15 (by norm_num)
  refine ⟨?_, ⟨?_, ?_, ?_, ?_, ?_, ?_⟩, ⟨?_, ?_, ?_⟩, rfl⟩
  · unfold IsFrontalFace
    simp only [Bool.and_eq_true, FloatValue.abs_lt_finite_iff]
    constructor
    · rintro ⟨⟨⟨y, hy, hy15⟩, ⟨p, hp, hp15⟩⟩, ⟨r, hr, hr15⟩⟩
      exact ⟨y, p, r, hy, hp, hr, hy15, hp15, hr15⟩
    · rintro ⟨y, p, r, hy, hp, hr, hy15, hp15, hr15⟩
      exact ⟨⟨⟨y, hy, hy15⟩, ⟨p, hp, hp15⟩⟩, ⟨r, hr, hr15⟩⟩
  · simp [IsFrontalFace, h15]
  · simp [IsFrontalFace, hm15]
  · simp [IsFrontalFace, h15]
  · simp [IsFrontalFace, hm15]
  · simp [IsFrontalFace, h15]
  · simp [IsFrontalFace, hm15]
  · simp only [IsFrontalFace, FloatValue.abs_neg]
  · simp only [IsFrontalFace, FloatValue.abs_neg]
  · simp only [IsFrontalFace, FloatValue.abs_neg]

/-! ## camera_face_recognizer: the saved region -/

/-- C22: in `SaveFaceImageWithId`, for every face rectangle and every frame
of size `cols` x `rows` (all of them `int` values, the frame size not
negative), whenever the region is accepted (`width > 0` and `height > 0`)
the region `(x, y, width, height)` passed to `cv::Rect` lies inside the
frame: `x >= 0`, `y >= 0`, `x + width <= cols` and `y + height <= rows`. -/
theorem SaveFaceImageWithId_region_in_frame (cols rows : Int) (face_rect : FaceRect)
    (roi : RegionOfInterest)
    (hcols : 0 ≤ cols ∧ cols ≤ INT_MAX) (hrows : 0 ≤ rows ∧ rows ≤ INT_MAX)
    (hx : INT_MIN ≤ face_rect.x ∧ face_rect.x ≤ INT_MAX)
    (hy : INT_MIN ≤ face_rect.y ∧ face_rect.y ≤ INT_MAX)
    (hw : INT_MIN ≤ face_rect.width ∧ face_rect.width ≤ INT_MAX)
    (hh : INT_MIN ≤ face_rect.height ∧ face_rect.height ≤ INT_MAX)
    (h : SaveFaceImageWithId_region cols rows face_rect = some roi) :
    (0 < roi.width ∧ 0 < roi.height) ∧
    (roi.x ≥ 0 ∧ roi.y ≥ 0 ∧ roi.x + roi.width ≤ cols ∧ roi.y + roi.height ≤ rows) := by
  unfold INT_MAX INT_MIN at *
  norm_num at hcols hrows hx hy hw hh
  unfold SaveFaceImageWithId_region int32 at h
  norm_num at h
  obtain ⟨⟨hwpos, hhpos⟩, hroi⟩ := h
  subst hroi
  simp only
  refine ⟨⟨?_, ?_⟩, ?_, ?_, ?_, ?_⟩ <;> omega

theorem SaveFaceImageWithId_region_in_frame_witness :
    ((0 : Int) ≤ 640 ∧ (640 : Int) ≤ INT_MAX) ∧ ((0 : Int) ≤ 480 ∧ (480 : Int) ≤ INT_MAX) ∧
    (INT_MIN ≤ (FaceRect.mk (-5) 470 30 30).x ∧ (FaceRect.mk (-5) 470 30 30).x ≤ INT_MAX) ∧
    (INT_MIN ≤ (FaceRect.mk (-5) 470 30 30).y ∧ (FaceRect.mk (-5) 470 30 30).y ≤ INT_MAX) ∧
    (INT_MIN ≤ (FaceRect.mk (-5) 470 30 30).width ∧
      (FaceRect.mk (-5) 470 30 30).width ≤ INT_MAX) ∧
    (INT_MIN ≤ (FaceRect.mk (-5) 470 30 30).height ∧
      (FaceRect.mk (-5) 470 30 30).height ≤ INT_MAX) ∧
    SaveFaceImageWithId_region 640 480 ⟨-5, 470, 30, 30⟩
      = some (RegionOfInterest.mk 0 470 30 10) ∧
    ((0 < (RegionOfInterest.mk 0 470 30 10).width ∧
        0 < (RegionOfInterest.mk 0 470 30 10).height) ∧
      ((RegionOfInterest.mk 0 470 30 10).x ≥ 0 ∧ (RegionOfInterest.mk 0 470 30 10).y ≥ 0 ∧
        (RegionOfInterest.mk 0 470 30 10).x + (RegionOfInterest.mk 0 470 30 10).width ≤ 640 ∧
        (RegionOfInterest.mk 0 470 30 10).y + (RegionOfInterest.mk 0 470 30 10).height
          ≤ 480)) :=
  ⟨by decide, by decide, by decide, by decide, by decide, by decide, by decide,
    SaveFaceImageWithId_region_in_frame 640 480 ⟨-5, 470, 30, 30⟩ ⟨0, 470, 30, 10⟩
      (by decide) (by decide) (by decide) (by decide) (by decide) (by decide) (by decide)⟩

/-! ## camera_face_recognizer: database comparison and per-face gating -/

/-- C23: `CompareFaceWithDatabase` returns true exactly when the database
face count is non-zero and `SearchFaceFeatureTopK` returns code 0 with a
non-empty result list, in which case `matched_id` and `similarity` are those
of the first search result; in every other case it returns false with
`matched_id = -1` and `similarity = 0.0`. -/
theorem CompareFaceWithDatabase_result (face_count search_result : Int)
    (search_results : List FaceSearchResult) :
    ((CompareFaceWithDatabase face_count search_result search_results).ret = true ↔
      (face_count ≠ 0 ∧ search_result = 0 ∧ search_results ≠ [])) ∧
    (∀ (top_match : FaceSearchResult) (others : List FaceSearchResult),
      face_count ≠ 0 → search_result = 0 → search_results = top_match :: others →
      CompareFaceWithDatabase face_count search_result search_results
        = { ret := true, matched_id := top_match.id, similarity := top_match.similarity }) ∧
    (¬ (face_count ≠ 0 ∧ search_result = 0 ∧ search_results ≠ []) →
      CompareFaceWithDatabase face_count search_result search_results
        = { ret := false, matched_id := -1, similarity := FloatValue.finite 0 }) := by
  have hemp : search_results.isEmpty = false ↔ search_results ≠ [] := by
    cases search_results <;> simp
  refine ⟨?_, ?_, ?_⟩
  · unfold CompareFaceWithDatabase
    by_cases h1 : face_count = 0
    · simp [h1]
    · by_cases h2 : search_result = 0 ∧ search_results.isEmpty = false
      · rw [if_neg h1, if_pos h2]
        simp only [true_iff]
        exact ⟨h1, h2.1, hemp.mp h2.2⟩
      · rw [if_neg h1, if_neg h2]
        simp only [Bool.false_eq_true, false_iff]
        rintro ⟨-, h3, h4⟩
        exact h2 ⟨h3, hemp.mpr h4⟩
  · intro top_match others h1 h2 h3
    subst h3
    unfold CompareFaceWithDatabase
    rw [if_neg h1, if_pos ⟨h2, rfl⟩]
    rfl
  · intro hnot
    unfold CompareFaceWithDatabase
    by_cases h1 : face_count = 0
    · rw [if_pos h1]
    · rw [if_neg h1, if_neg]
      rintro ⟨h3, h4⟩
      exact hnot ⟨h1, h3, hemp.mp h4⟩

theorem FloatValue.lt_false_iff_ge (a : FloatValue) (t : ℚ) (ha : a ≠ FloatValue.nan) :
    a.lt (FloatValue.finite t) = false ↔ a.ge (FloatValue.finite t) = true := by
  cases a with
  | finite q => simp [FloatValue.lt, FloatValue.ge]
  | posInf => simp [FloatValue.lt, FloatValue.ge]
  | negInf => simp [FloatValue.lt, FloatValue.ge]
  | nan => exact absurd rfl ha

/-- The three gates of the loop body decide whether `FaceFeatureExtract` is
called: the face is frontal, the quality score is not below the threshold,
and no glasses reflection was found. -/
theorem processFace_extractionAttempted (conf : List FloatValue) (i : Nat)
    (face : FaceTrackWrap) (answers : FaceAnswers) :
    (processFace conf i face answers).extractionAttempted = true ↔
      (IsFrontalFace face = true ∧
        (qualityScore conf i).lt (FloatValue.finite (1 / 2)) = false ∧
        answers.has_glasses_reflection = false) := by
  unfold processFace
  simp only
  cases hf : IsFrontalFace face <;>
    cases hq : (qualityScore conf i).lt (FloatValue.finite (1 / 2)) <;>
    cases hg : answers.has_glasses_reflection <;>
    simp [FaceStep.extractionAttempted]
  split_ifs <;> rfl

/-- C24, as stated, fails: for a frontal face without glasses reflection
whose quality confidence is not-a-number, the test `quality_score < 0.5f`
is false, the face is not skipped and `FaceFeatureExtract` is called,
although the score is not `>= 0.5`. -/
theorem processFace_nan_quality_extracts :
    IsFrontalFace ⟨⟨FloatValue.finite 0, FloatValue.finite 0, FloatValue.finite 0⟩,
      ⟨0, 0, 10, 10⟩⟩ = true ∧
    (qualityScore [FloatValue.nan] 0).ge (FloatValue.finite (1 / 2)) = false ∧
    (processFace [FloatValue.nan] 0
      ⟨⟨FloatValue.finite 0, FloatValue.finite 0, FloatValue.finite 0⟩, ⟨0, 0, 10, 10⟩⟩
      ⟨false, 0, 1, 0, []⟩).extractionAttempted = true := by
  have hf : IsFrontalFace ⟨⟨FloatValue.finite 0, FloatValue.finite 0, FloatValue.finite 0⟩,
      ⟨0, 0, 10, 10⟩⟩ = true := by
    simp [IsFrontalFace, FloatValue.abs, FloatValue.lt]
  have hq : qualityScore [FloatValue.nan] 0 = FloatValue.nan := by
    simp [qualityScore]
  refine ⟨hf, ?_, ?_⟩
  · rw [hq]
    rfl
  · rw [processFace_extractionAttempted]
    refine ⟨hf, ?_, rfl⟩
    rw [hq]
    rfl

/-- C24, amended: in the camera main loop, for the `i`-th detected face,
feature extraction is attempted exactly when the face is frontal, its
quality score is not below 0.5 (the loop skips on `quality_score < 0.5f`;
for every score that is a number or an infinity this is `>= 0.5`) and no
glasses reflection was detected, where the quality score is the `i`-th
face-quality confidence or 0.0 when no `i`-th confidence exists; so a face
with no quality confidence entry is never recognized. -/
theorem processFace_extraction_gate (conf : List FloatValue) (i : Nat)
    (face : FaceTrackWrap) (answers : FaceAnswers) :
    ((processFace conf i face answers).extractionAttempted = true ↔
      (IsFrontalFace face = true ∧
        (qualityScore conf i).lt (FloatValue.finite (1 / 2)) = false ∧
        answers.has_glasses_reflection = false)) ∧
    (qualityScore conf i ≠ FloatValue.nan →
      ((processFace conf i face answers).extractionAttempted = true ↔
        (IsFrontalFace face = true ∧
          (qualityScore conf i).ge (FloatValue.finite (1 / 2)) = true ∧
          answers.has_glasses_reflection = false))) ∧
    (∀ c : FloatValue, conf.get? i = some c → qualityScore conf i = c) ∧
    (conf.length ≤ i →
      qualityScore conf i = FloatValue.finite 0 ∧
      (processFace conf i face answers).extractionAttempted = false ∧
      (processFace conf i face answers).recognized = false) ∧
    ((processFace conf i face answers).recognized = true →
      (processFace conf i face answers).extractionAttempted = true) := by
  have hgate := processFace_extractionAttempted conf i face answers
  have hrec : (processFace conf i face answers).recognized = true →
      (processFace conf i face answers).extractionAttempted = true := by
    cases hs : processFace conf i face answers <;> simp [FaceStep.recognized,
      FaceStep.extractionAttempted]
  refine ⟨hgate, ?_, ?_, ?_, hrec⟩
  · intro hnan
    rw [hgate, FloatValue.lt_false_iff_ge _ _ hnan]
  · intro c hc
    have hlt : i < conf.length := by
      by_contra hge
      rw [List.get?_eq_none.mpr (not_lt.mp hge)] at hc
      exact Option.noConfusion hc
    unfold qualityScore
    rw [if_pos hlt, List.getD_eq_getElem?_getD, ← List.get?_eq_getElem?, hc]
    rfl
  · intro hlen
    have hq : qualityScore conf i = FloatValue.finite 0 := by
      unfold qualityScore
      rw [if_neg (not_lt.mpr hlen)]
    have hlt : (FloatValue.finite 0).lt (FloatValue.finite (1 / 2)) = true := by
      simp [FloatValue.lt]
    have hatt : (processFace conf i face answers).extractionAttempted = false := by
      cases hval : (processFace conf i face answers).extractionAttempted with
      | false => rfl
      | true =>
        have := (hgate.mp hval).2.1
        rw [hq, hlt] at this
        exact Bool.noConfusion this
    refine ⟨hq, hatt, ?_⟩
    cases hval : (processFace conf i face answers).recognized with
    | false => rfl
    | true =>
      rw [hrec hval] at hatt
      exact Bool.noConfusion hatt


end inspirecv
